import Mathlib

/-!
Verification of the canopeners CANopen codec and SDO client engine.

The definitions below are a shallow embedding of the Rust sources
(`src/lib.rs`, `src/enums.rs`).  Machine integers (u8/u16/u32) become `Nat`
with explicit truncation where the Rust code truncates; byte buffers become
`List Nat`; fallible Rust functions return `Except CanOpenError`; functions
that can hit a Rust panic (out-of-bounds slice indexing, `unwrap`, `todo!`)
return `DOut`, whose `panic` constructor marks such a panic.
-/

namespace Canopeners

/-- `enums::AbortCode` (31 named abort codes, src/enums.rs). -/
inductive AbortCode where
  | ToggleBitNotAlternated
  | SdoProtocolTimedOut
  | InvalidClientServerCommandSpecifier
  | InvalidBlockSize
  | InvalidSequenceNumber
  | CrcError
  | OutOfMemory
  | UnsupportedAccessToObject
  | AttemptToReadWriteOnlyObject
  | AttemptToWriteReadOnlyObject
  | ObjectNotInDictionary
  | ObjectCannotBeMappedToPdo
  | ExceedPdoLength
  | GeneralParameterIncompatibility
  | GeneralInternalIncompatibility
  | HardwareError
  | DataTypeMismatchLengthMismatch
  | DataTypeMismatchLengthTooHigh
  | DataTypeMismatchLengthTooLow
  | SubIndexDoesNotExist
  | InvalidValueForParameter
  | ValueTooHigh
  | ValueTooLow
  | MaxLessThanMin
  | ResourceNotAvailable
  | GeneralError
  | DataTransferOrStorageFailed
  | LocalControlPreventsDataTransfer
  | DeviceStatePreventsDataTransfer
  | ObjectDictionaryGenerationFailed
  | NoDataAvailable
  deriving DecidableEq

/-- `AbortCode::decode` (src/enums.rs): flat 1:1 table, unknown values give
`None`. -/
def AbortCode.decode (code : Nat) : Option AbortCode :=
  if code = 0x05030000 then some .ToggleBitNotAlternated
  else if code = 0x05040000 then some .SdoProtocolTimedOut
  else if code = 0x05040001 then some .InvalidClientServerCommandSpecifier
  else if code = 0x05040002 then some .InvalidBlockSize
  else if code = 0x05040003 then some .InvalidSequenceNumber
  else if code = 0x05040004 then some .CrcError
  else if code = 0x05040005 then some .OutOfMemory
  else if code = 0x06010000 then some .UnsupportedAccessToObject
  else if code = 0x06010001 then some .AttemptToReadWriteOnlyObject
  else if code = 0x06010002 then some .AttemptToWriteReadOnlyObject
  else if code = 0x06020000 then some .ObjectNotInDictionary
  else if code = 0x06040041 then some .ObjectCannotBeMappedToPdo
  else if code = 0x06040042 then some .ExceedPdoLength
  else if code = 0x06040043 then some .GeneralParameterIncompatibility
  else if code = 0x06040047 then some .GeneralInternalIncompatibility
  else if code = 0x06060000 then some .HardwareError
  else if code = 0x06070010 then some .DataTypeMismatchLengthMismatch
  else if code = 0x06070012 then some .DataTypeMismatchLengthTooHigh
  else if code = 0x06070013 then some .DataTypeMismatchLengthTooLow
  else if code = 0x06090011 then some .SubIndexDoesNotExist
  else if code = 0x06090030 then some .InvalidValueForParameter
  else if code = 0x06090031 then some .ValueTooHigh
  else if code = 0x06090032 then some .ValueTooLow
  else if code = 0x06090036 then some .MaxLessThanMin
  else if code = 0x060A0023 then some .ResourceNotAvailable
  else if code = 0x08000000 then some .GeneralError
  else if code = 0x08000020 then some .DataTransferOrStorageFailed
  else if code = 0x08000021 then some .LocalControlPreventsDataTransfer
  else if code = 0x08000022 then some .DeviceStatePreventsDataTransfer
  else if code = 0x08000023 then some .ObjectDictionaryGenerationFailed
  else if code = 0x08000024 then some .NoDataAvailable
  else none

/-- `AbortCode::encode` (src/enums.rs). -/
def AbortCode.encode : AbortCode → Nat
  | .ToggleBitNotAlternated => 0x05030000
  | .SdoProtocolTimedOut => 0x05040000
  | .InvalidClientServerCommandSpecifier => 0x05040001
  | .InvalidBlockSize => 0x05040002
  | .InvalidSequenceNumber => 0x05040003
  | .CrcError => 0x05040004
  | .OutOfMemory => 0x05040005
  | .UnsupportedAccessToObject => 0x06010000
  | .AttemptToReadWriteOnlyObject => 0x06010001
  | .AttemptToWriteReadOnlyObject => 0x06010002
  | .ObjectNotInDictionary => 0x06020000
  | .ObjectCannotBeMappedToPdo => 0x06040041
  | .ExceedPdoLength => 0x06040042
  | .GeneralParameterIncompatibility => 0x06040043
  | .GeneralInternalIncompatibility => 0x06040047
  | .HardwareError => 0x06060000
  | .DataTypeMismatchLengthMismatch => 0x06070010
  | .DataTypeMismatchLengthTooHigh => 0x06070012
  | .DataTypeMismatchLengthTooLow => 0x06070013
  | .SubIndexDoesNotExist => 0x06090011
  | .InvalidValueForParameter => 0x06090030
  | .ValueTooHigh => 0x06090031
  | .ValueTooLow => 0x06090032
  | .MaxLessThanMin => 0x06090036
  | .ResourceNotAvailable => 0x060A0023
  | .GeneralError => 0x08000000
  | .DataTransferOrStorageFailed => 0x08000020
  | .LocalControlPreventsDataTransfer => 0x08000021
  | .DeviceStatePreventsDataTransfer => 0x08000022
  | .ObjectDictionaryGenerationFailed => 0x08000023
  | .NoDataAvailable => 0x08000024

/-- `CanOpenError` (src/lib.rs).  String payloads carry the Rust error
messages (static text, with formatted values appended via `toString`). -/
inductive CanOpenError where
  | OverflowError (msg : String)
  | Timeout (ms : Nat)
  | BadMessage (msg : String)
  | ConnectionError (msg : String)
  | CanVersion (msg : String)
  | ParseError (msg : String)
  | UnknownFrameRWType (id : Nat)
  | NotYetImplemented (msg : String)
  | SdoAbortTransfer (code : AbortCode)
  | IOError
  deriving DecidableEq

instance exceptDecEq {e a : Type} [DecidableEq e] [DecidableEq a] : DecidableEq (Except e a)
  | .error x, .error y =>
    if h : x = y then .isTrue (h ▸ rfl) else .isFalse (fun hh => h (Except.error.inj hh))
  | .error _, .ok _ => .isFalse Except.noConfusion
  | .ok _, .error _ => .isFalse Except.noConfusion
  | .ok x, .ok y =>
    if h : x = y then .isTrue (h ▸ rfl) else .isFalse (fun hh => h (Except.ok.inj hh))

/-- Outcome of running Rust code that may return a value, return an error,
or panic (out-of-bounds indexing, `unwrap` on `Err`, `todo!`). -/
inductive DOut (α : Type) where
  | panic : DOut α
  | err : CanOpenError → DOut α
  | ok : α → DOut α
  deriving DecidableEq

/-- `enums::EmergencyErrorCode` (src/enums.rs). -/
inductive EmergencyErrorCode where
  | ErrorResetOrNoError
  | GenericError
  | Current
  | CurrentInputSide
  | CurrentInsideDevice
  | CurrentOutputSide
  | Voltage
  | MainsVoltage
  | VoltageInsideDevice
  | OutputVoltage
  | Temperature
  | AmbientTemperature
  | DeviceTemperature
  | DeviceHardware
  | DeviceSoftware
  | InternalSoftware
  | UserSoftware
  | DataSet
  | AdditionalModules
  | Monitoring
  | Communication
  | CommunicationCanOverrun
  | CommunicationErrorPassiveMode
  | CommunicationLifeGuardError
  | CommunicationRecoveredBusOff
  | CommunicationCanIdCollision
  | ProtocolError
  | ProtocolErrorPdoLength
  | ProtocolErrorPdoLengthExceeded
  | ProtocolErrorDamMpdo
  | ProtocolErrorUnexpectedSyncLength
  | ProtocolErrorRpdoTimeout
  | ExternalError
  | AdditionalFunctions
  | DeviceSpecific
  deriving DecidableEq

/-- `EmergencyErrorCode::decode` (src/enums.rs): the Rust `match` arms in
source order (exact codes first, then range buckets); the fall-through arm
yields a `ParseError`. -/
def EmergencyErrorCode.decode (code : Nat) : Except CanOpenError EmergencyErrorCode :=
  if code = 0x8110 then .ok .CommunicationCanOverrun
  else if code = 0x8120 then .ok .CommunicationErrorPassiveMode
  else if code = 0x8130 then .ok .CommunicationLifeGuardError
  else if code = 0x8140 then .ok .CommunicationRecoveredBusOff
  else if code = 0x8150 then .ok .CommunicationCanIdCollision
  else if code = 0x8210 then .ok .ProtocolErrorPdoLength
  else if code = 0x8220 then .ok .ProtocolErrorPdoLengthExceeded
  else if code = 0x8230 then .ok .ProtocolErrorDamMpdo
  else if code = 0x8240 then .ok .ProtocolErrorUnexpectedSyncLength
  else if code = 0x8250 then .ok .ProtocolErrorRpdoTimeout
  else if 0x2100 ≤ code ∧ code ≤ 0x21FF then .ok .CurrentInputSide
  else if 0x2200 ≤ code ∧ code ≤ 0x22FF then .ok .CurrentInsideDevice
  else if 0x2300 ≤ code ∧ code ≤ 0x23FF then .ok .CurrentOutputSide
  else if 0x3100 ≤ code ∧ code ≤ 0x31FF then .ok .MainsVoltage
  else if 0x3200 ≤ code ∧ code ≤ 0x32FF then .ok .VoltageInsideDevice
  else if 0x3300 ≤ code ∧ code ≤ 0x33FF then .ok .OutputVoltage
  else if 0x4100 ≤ code ∧ code ≤ 0x41FF then .ok .AmbientTemperature
  else if 0x4200 ≤ code ∧ code ≤ 0x42FF then .ok .DeviceTemperature
  else if 0x6100 ≤ code ∧ code ≤ 0x61FF then .ok .InternalSoftware
  else if 0x6200 ≤ code ∧ code ≤ 0x62FF then .ok .UserSoftware
  else if 0x6300 ≤ code ∧ code ≤ 0x63FF then .ok .DataSet
  else if 0x8111 ≤ code ∧ code ≤ 0x811F then .ok .Communication
  else if 0x8121 ≤ code ∧ code ≤ 0x812F then .ok .Communication
  else if 0x8131 ≤ code ∧ code ≤ 0x813F then .ok .Communication
  else if 0x8141 ≤ code ∧ code ≤ 0x814F then .ok .Communication
  else if 0x8151 ≤ code ∧ code ≤ 0x81FF then .ok .Communication
  else if 0x8211 ≤ code ∧ code ≤ 0x821F then .ok .ProtocolError
  else if 0x8221 ≤ code ∧ code ≤ 0x822F then .ok .ProtocolError
  else if 0x8231 ≤ code ∧ code ≤ 0x823F then .ok .ProtocolError
  else if 0x8241 ≤ code ∧ code ≤ 0x824F then .ok .ProtocolError
  else if 0x8251 ≤ code ∧ code ≤ 0x82FF then .ok .ProtocolError
  else if 0x2000 ≤ code ∧ code ≤ 0x20FF then .ok .Current
  else if 0x3000 ≤ code ∧ code ≤ 0x30FF then .ok .Voltage
  else if 0x4000 ≤ code ∧ code ≤ 0x40FF then .ok .Temperature
  else if 0x5000 ≤ code ∧ code ≤ 0x50FF then .ok .DeviceHardware
  else if 0x6000 ≤ code ∧ code ≤ 0x60FF then .ok .DeviceSoftware
  else if 0x7000 ≤ code ∧ code ≤ 0x70FF then .ok .AdditionalModules
  else if 0x8000 ≤ code ∧ code ≤ 0x80FF then .ok .Monitoring
  else if 0x8200 ≤ code ∧ code ≤ 0x820F then .ok .ProtocolError
  else if 0x9000 ≤ code ∧ code ≤ 0x90FF then .ok .ExternalError
  else if 0xF000 ≤ code ∧ code ≤ 0xF0FF then .ok .AdditionalFunctions
  else if 0xFF00 ≤ code ∧ code ≤ 0xFFFF then .ok .DeviceSpecific
  else if code ≤ 0x00FF then .ok .ErrorResetOrNoError
  else if 0x1000 ≤ code ∧ code ≤ 0x10FF then .ok .GenericError
  else .error (.ParseError ("bad error code: " ++ toString code))

/-- `EmergencyErrorCode::encode` (src/enums.rs): canonical bucket base. -/
def EmergencyErrorCode.encode : EmergencyErrorCode → Nat
  | .ErrorResetOrNoError => 0x0000
  | .GenericError => 0x1000
  | .Current => 0x2000
  | .CurrentInputSide => 0x2100
  | .CurrentInsideDevice => 0x2200
  | .CurrentOutputSide => 0x2300
  | .Voltage => 0x3000
  | .MainsVoltage => 0x3100
  | .VoltageInsideDevice => 0x3200
  | .OutputVoltage => 0x3300
  | .Temperature => 0x4000
  | .AmbientTemperature => 0x4100
  | .DeviceTemperature => 0x4200
  | .DeviceHardware => 0x5000
  | .DeviceSoftware => 0x6000
  | .InternalSoftware => 0x6100
  | .UserSoftware => 0x6200
  | .DataSet => 0x6300
  | .AdditionalModules => 0x7000
  | .Monitoring => 0x8000
  | .Communication => 0x8100
  | .CommunicationCanOverrun => 0x8110
  | .CommunicationErrorPassiveMode => 0x8120
  | .CommunicationLifeGuardError => 0x8130
  | .CommunicationRecoveredBusOff => 0x8140
  | .CommunicationCanIdCollision => 0x8150
  | .ProtocolError => 0x8200
  | .ProtocolErrorPdoLength => 0x8210
  | .ProtocolErrorPdoLengthExceeded => 0x8220
  | .ProtocolErrorDamMpdo => 0x8230
  | .ProtocolErrorUnexpectedSyncLength => 0x8240
  | .ProtocolErrorRpdoTimeout => 0x8250
  | .ExternalError => 0x9000
  | .AdditionalFunctions => 0xF000
  | .DeviceSpecific => 0xFF00

/-- `enums::EmergencyErrorRegister` (src/enums.rs). -/
inductive EmergencyErrorRegister where
  | GenericError
  | Current
  | Voltage
  | Temperature
  | CommunicationError
  | DeviceProfileSpecific
  | Reserved
  | ManufacturerSpecific
  deriving DecidableEq

/-- `EmergencyErrorRegister::decode` (src/enums.rs): flags pushed in bit
order 0x01, 0x02, ..., 0x80. -/
def EmergencyErrorRegister.decode (code : Nat) : List EmergencyErrorRegister :=
  (if code &&& 0x01 ≠ 0 then [EmergencyErrorRegister.GenericError] else []) ++
  (if code &&& 0x02 ≠ 0 then [EmergencyErrorRegister.Current] else []) ++
  (if code &&& 0x04 ≠ 0 then [EmergencyErrorRegister.Voltage] else []) ++
  (if code &&& 0x08 ≠ 0 then [EmergencyErrorRegister.Temperature] else []) ++
  (if code &&& 0x10 ≠ 0 then [EmergencyErrorRegister.CommunicationError] else []) ++
  (if code &&& 0x20 ≠ 0 then [EmergencyErrorRegister.DeviceProfileSpecific] else []) ++
  (if code &&& 0x40 ≠ 0 then [EmergencyErrorRegister.Reserved] else []) ++
  (if code &&& 0x80 ≠ 0 then [EmergencyErrorRegister.ManufacturerSpecific] else [])

/-- Bit value of one `EmergencyErrorRegister` flag (src/enums.rs encode table). -/
def EmergencyErrorRegister.bit : EmergencyErrorRegister → Nat
  | .GenericError => 0x01
  | .Current => 0x02
  | .Voltage => 0x04
  | .Temperature => 0x08
  | .CommunicationError => 0x10
  | .DeviceProfileSpecific => 0x20
  | .Reserved => 0x40
  | .ManufacturerSpecific => 0x80

/-- `EmergencyErrorRegister::encode` (src/enums.rs): OR-fold the flag bits. -/
def EmergencyErrorRegister.encode (errors : List EmergencyErrorRegister) : Nat :=
  errors.foldl (fun code e => code ||| e.bit) 0

/-- A socketcan CAN identifier: standard (11-bit) or extended (29-bit). -/
inductive CanId where
  | std (id : Nat)
  | ext (id : Nat)
  deriving DecidableEq

/-- A socketcan CAN frame: identifier plus payload bytes (0..=8 on real CAN). -/
structure CanFrame where
  id : CanId
  data : List Nat
  deriving DecidableEq

/-- `id_as_raw_std` (src/lib.rs): the raw standard id, or `CanVersion` for an
extended (29-bit) id. -/
def id_as_raw_std (frame : CanFrame) : Except CanOpenError Nat :=
  match frame.id with
  | .std sid => .ok sid
  | .ext _ => .error (.CanVersion ("got extended (29bit) id, expected standard (11bit) id"))

/-- Rust slice `&data[lo..hi]`: `none` models the out-of-bounds panic. -/
def sliceD (data : List Nat) (lo hi : Nat) : Option (List Nat) :=
  if lo ≤ hi ∧ hi ≤ data.length then some ((data.drop lo).take (hi - lo)) else none

/-- `u16::from_le_bytes([b0, b1])`. -/
def u16le (b0 b1 : Nat) : Nat := b0 + 256 * b1

/-- `u32::from_le_bytes([b0, b1, b2, b3])`. -/
def u32le (b0 b1 b2 b3 : Nat) : Nat := b0 + 256 * b1 + 65536 * b2 + 16777216 * b3

/-- `u16::to_le_bytes` of a `u16` value. -/
def u16ToLe (v : Nat) : List Nat := [v % 256, v / 256 % 256]

/-- `u32::to_le_bytes` of a `u32` value. -/
def u32ToLe (v : Nat) : List Nat :=
  [v % 256, v / 256 % 256, v / 65536 % 256, v / 16777216 % 256]

/-- `data[lo..lo+xs.length].copy_from_slice(&xs)` on a list. -/
def overwrite (data : List Nat) (lo : Nat) (xs : List Nat) : List Nat :=
  data.take lo ++ xs ++ data.drop (lo + xs.length)

/-- `NmtFunction` (src/lib.rs, `#[br(repr(u8))]`). -/
inductive NmtFunction where
  | EnterOperational
  | EnterStop
  | EnterPreOperational
  | ResetNode
  | ResetCommunication
  deriving DecidableEq

/-- The `u8` discriminant of `NmtFunction`. -/
def NmtFunction.toByte : NmtFunction → Nat
  | .EnterOperational => 0x01
  | .EnterStop => 0x02
  | .EnterPreOperational => 0x80
  | .ResetNode => 0x81
  | .ResetCommunication => 0x82

/-- binrw `#[br(repr(u8))]` parse of a `NmtFunction` byte. -/
def NmtFunction.ofByte (b : Nat) : Option NmtFunction :=
  if b = 0x01 then some .EnterOperational
  else if b = 0x02 then some .EnterStop
  else if b = 0x80 then some .EnterPreOperational
  else if b = 0x81 then some .ResetNode
  else if b = 0x82 then some .ResetCommunication
  else none

/-- `Nmt` (src/lib.rs). -/
structure Nmt where
  function : NmtFunction
  target_node : Nat
  deriving DecidableEq

/-- `Nmt::encode` (src/lib.rs): COB-ID 0x000, payload `[function, target_node]`
via binrw. -/
def Nmt.encode (m : Nmt) : CanFrame :=
  { id := .std 0x000, data := [m.function.toByte, m.target_node] }

/-- `Nmt::decode` (src/lib.rs): binrw read of 2 bytes from the payload (extra
bytes ignored); a short payload or an unknown function byte is a binrw error,
surfaced as `ParseError`. -/
def Nmt.decode (frame : CanFrame) : DOut Nmt :=
  match frame.data with
  | b0 :: b1 :: _ =>
    match NmtFunction.ofByte b0 with
    | some f => .ok { function := f, target_node := b1 }
    | none => .err (.ParseError ("binrw err"))
  | _ => .err (.ParseError ("binrw err"))

/-- `Emergency` (src/lib.rs). -/
structure Emergency where
  node_id : Nat
  error_code : EmergencyErrorCode
  error_register : List EmergencyErrorRegister
  vendor_specific : List Nat
  deriving DecidableEq

/-- `Emergency::encode` (src/lib.rs): COB-ID `0x80 + node_id`; binrw writes
the error code as little-endian u16, the register byte, and 5 vendor bytes. -/
def Emergency.encode (m : Emergency) : CanFrame :=
  { id := .std (0x80 + m.node_id),
    data := u16ToLe m.error_code.encode ++
      [EmergencyErrorRegister.encode m.error_register] ++ m.vendor_specific }

/-- `Emergency::decode` (src/lib.rs): requires at least 8 payload bytes, then
binrw-reads code, register and 5 vendor bytes, and attaches the node id
`(id - 0x080) as u8` derived from the COB-ID. -/
def Emergency.decode (frame : CanFrame) : DOut Emergency :=
  if frame.data.length < 8 then
    .err (.ParseError ("not a valid Emergency message, need at least 8 bytes"))
  else
    match id_as_raw_std frame with
    | .error e => .err e
    | .ok id =>
      match frame.data with
      | b0 :: b1 :: b2 :: rest =>
        match EmergencyErrorCode.decode (u16le b0 b1) with
        | .ok code =>
          .ok { node_id := (id - 0x080) % 256, error_code := code,
                error_register := EmergencyErrorRegister.decode b2,
                vendor_specific := rest.take 5 }
        | .error _ => .err (.ParseError ("binrw err"))
      | _ => .err (.ParseError ("binrw err"))

/-- `GuardStatus` (src/lib.rs). -/
inductive GuardStatus where
  | Boot
  | Stopped
  | Operational
  | PreOperational
  deriving DecidableEq

/-- The `u8` discriminant of `GuardStatus`. -/
def GuardStatus.toByte : GuardStatus → Nat
  | .Boot => 0x00
  | .Stopped => 0x04
  | .Operational => 0x05
  | .PreOperational => 0x7F

/-- `TryFrom<u8> for GuardStatus` (src/lib.rs). -/
def GuardStatus.ofByte (b : Nat) : Option GuardStatus :=
  if b = 0x00 then some .Boot
  else if b = 0x04 then some .Stopped
  else if b = 0x05 then some .Operational
  else if b = 0x7F then some .PreOperational
  else none

/-- `Guard` (src/lib.rs). -/
structure Guard where
  node_id : Nat
  toggle : Bool
  status : GuardStatus
  deriving DecidableEq

/-- `Guard::encode` (src/lib.rs): COB-ID `0x700 + node_id`; binrw writes the
single byte `(status) | (toggle << 7)`. -/
def Guard.encode (m : Guard) : CanFrame :=
  { id := .std (0x700 + m.node_id),
    data := [m.status.toByte ||| (m.toggle.toNat <<< 7)] }

/-- `Guard::decode` (src/lib.rs): checks non-empty payload and COB-ID in
`0x700..=0x77F`, then binrw-reads toggle and status from the first byte.
The `node_id` field is `#[brw(ignore)]`, so binrw leaves it at the `u8`
default 0: the COB-ID-derived node id is never attached. -/
def Guard.decode (frame : CanFrame) : DOut Guard :=
  match frame.data with
  | [] => .err (.ParseError ("data too short"))
  | raw_byte :: _ =>
    match id_as_raw_std frame with
    | .error e => .err e
    | .ok id =>
      if ¬(0x700 ≤ id ∧ id ≤ 0x77F) then .err (.BadMessage ("wrong id"))
      else
        match GuardStatus.ofByte (raw_byte &&& 0x7F) with
        | some status =>
          .ok { node_id := 0, toggle := raw_byte &&& 0x80 != 0, status := status }
        | none => .err (.ParseError ("no parse"))

/-- `ReqRes` (src/lib.rs): request/response relative to the device. -/
inductive ReqRes where
  | Req
  | Res
  deriving DecidableEq

/-- `ReqRes::to_u16_sdo` (src/lib.rs). -/
def ReqRes.to_u16_sdo : ReqRes → Nat
  | .Req => 0x600
  | .Res => 0x580

/-- `ReqRes::from_u16_sdo` (src/lib.rs). -/
def ReqRes.from_u16_sdo (id : Nat) : ReqRes :=
  if id &&& 0x780 = 0x580 then .Res else .Req

/-- `Pdo` (src/lib.rs). -/
structure Pdo where
  node_id : Nat
  pdo_index : Nat
  reqres : ReqRes
  data : List Nat
  deriving DecidableEq

/-- `Pdo::new` (src/lib.rs): rejects data outside 1..=8 bytes. -/
def Pdo.new (node_id pdo_index : Nat) (data : List Nat) : Except CanOpenError Pdo :=
  if ¬(1 ≤ data.length ∧ data.length ≤ 8) then
    .error (.BadMessage ("got " ++ toString data.length ++
      " bytes of PDO data, expected between 1 and 8 bytes"))
  else
    .ok { node_id := node_id, pdo_index := pdo_index, reqres := .Req, data := data }

/-- `Pdo::encode` (src/lib.rs): COB-ID
`node_id + ((pdo_index + (1 if Req else 0)) << 8)`; payload is the raw data. -/
def Pdo.encode (m : Pdo) : CanFrame :=
  { id := .std (m.node_id + ((m.pdo_index + (if m.reqres = .Req then 1 else 0)) <<< 8)),
    data := m.data }

/-- `Pdo::decode` (src/lib.rs): direction from bit 0x80 of the COB-ID, pdo
index from bits 8..10 (minus 1 for Req, a `u8` subtraction), node id from the
low 7 bits; the payload is copied verbatim with no length check. -/
def Pdo.decode (frame : CanFrame) : DOut Pdo :=
  match id_as_raw_std frame with
  | .error e => .err e
  | .ok id =>
    let reqres : ReqRes := if id &&& 0x80 = 0 then .Res else .Req
    let pdo_index := ((id &&& 0x700) >>> 8) - (if reqres = .Req then 1 else 0)
    .ok { node_id := id &&& 0x7F, pdo_index := pdo_index, reqres := reqres,
          data := frame.data }

/-- `Sync` (src/lib.rs). -/
structure Sync where
  deriving DecidableEq

/-- `Sync::encode` (src/lib.rs): COB-ID 0x80, empty payload. -/
def Sync.encode (_ : Sync) : CanFrame := { id := .std 0x80, data := [] }

/-- `Sync::decode` (src/lib.rs): COB-ID must be 0x80 and the payload empty. -/
def Sync.decode (frame : CanFrame) : DOut Sync :=
  match id_as_raw_std frame with
  | .error e => .err e
  | .ok id =>
    if id ≠ 0x80 then .err (.BadMessage ("not a SYNC cob-id: " ++ toString id))
    else if frame.data ≠ [] then
      .err (.BadMessage ("data section of SYNC message should be empty"))
    else .ok {}

/-- `SdoCmdInitiatePayload` (src/lib.rs): expedited data bytes or an optional
segmented total size. -/
inductive SdoCmdInitiatePayload where
  | Expedited (data : List Nat)
  | Segmented (size : Option Nat)
  deriving DecidableEq

/-- `SdoCmdInitiatePayload::encode` (src/lib.rs): reads the 8 bytes already
set in the frame, ORs flag bits into the command byte and writes the payload
bytes.  `none` models the `unreachable!()` panic on an expedited length
outside 1..=4. -/
def SdoCmdInitiatePayload.encode (p : SdoCmdInitiatePayload) (cur : List Nat) :
    Option (List Nat) :=
  let command_byte := cur.headD 0
  match p with
  | .Expedited exp_data =>
    (match exp_data.length with
      | 1 => some 0b11
      | 2 => some 0b10
      | 3 => some 0b01
      | 4 => some 0b00
      | _ => none).map fun l =>
      overwrite (cur.set 0 (command_byte ||| (l <<< 2) ||| 0b11)) 4 exp_data
  | .Segmented (some size) =>
    some (overwrite (cur.set 0 (command_byte ||| 0b01)) 4 (u32ToLe size))
  | .Segmented none => some (cur.set 0 (command_byte ||| 0b00))

/-- `SdoCmdInitiatePayload::decode` (src/lib.rs). -/
def SdoCmdInitiatePayload.decode (frame : CanFrame) : DOut SdoCmdInitiatePayload :=
  match frame.data[0]? with
  | none => .panic
  | some b0 =>
    let size_indicated := b0 &&& 0b1 ≠ 0
    let expedited := b0 &&& 0b10 ≠ 0
    if expedited then
      match (if size_indicated then
          match (b0 &&& 0b1100) >>> 2 with
          | 0b11 => Except.ok 1
          | 0b10 => Except.ok 2
          | 0b01 => Except.ok 3
          | 0b00 => Except.ok 4
          | _ => Except.error (CanOpenError.ParseError ("logic bug while decoding sdo"))
        else Except.ok 4) with
      | .error e => .err e
      | .ok l =>
        match sliceD frame.data 4 (4 + l) with
        | none => .panic
        | some d => .ok (.Expedited d)
    else
      if size_indicated then
        match sliceD frame.data 4 8 with
        | none => .panic
        | some bs =>
          match bs with
          | [s0, s1, s2, s3] => .ok (.Segmented (some (u32le s0 s1 s2 s3)))
          | _ => .panic
      else .ok (.Segmented none)

/-- `SdoCmdInitiateDownloadRx` (src/lib.rs). -/
structure SdoCmdInitiateDownloadRx where
  index : Nat
  sub_index : Nat
  payload : SdoCmdInitiatePayload
  deriving DecidableEq

/-- `SdoCmdInitiateDownloadRx::encode` (src/lib.rs): command byte 0b00100000,
index little-endian in bytes 1..3, sub-index in byte 3, then the payload. -/
def SdoCmdInitiateDownloadRx.encode (c : SdoCmdInitiateDownloadRx) : Option (List Nat) :=
  c.payload.encode [0b00100000, c.index % 256, c.index / 256 % 256, c.sub_index, 0, 0, 0, 0]

/-- `SdoCmdInitiateDownloadRx::decode` (src/lib.rs).  The `try_into` error
path ("not enough data") is unreachable in Rust because the slice `[1..3]`
panics first when the payload is short; `sliceD = none` models that panic. -/
def SdoCmdInitiateDownloadRx.decode (frame : CanFrame) : DOut SdoCmdInitiateDownloadRx :=
  match sliceD frame.data 1 3 with
  | none => .panic
  | some ib =>
    match ib with
    | [i0, i1] =>
      match frame.data[3]? with
      | none => .panic
      | some sub_index =>
        match SdoCmdInitiatePayload.decode frame with
        | .panic => .panic
        | .err e => .err e
        | .ok payload =>
          .ok { index := u16le i0 i1, sub_index := sub_index, payload := payload }
    | _ => .err (.ParseError ("not enough data"))

/-- `SdoCmdInitiateDownloadTx` (src/lib.rs). -/
structure SdoCmdInitiateDownloadTx where
  index : Nat
  sub_index : Nat
  deriving DecidableEq

/-- `SdoCmdInitiateDownloadTx::encode` (src/lib.rs): raw byte 0b01100000. -/
def SdoCmdInitiateDownloadTx.encode (c : SdoCmdInitiateDownloadTx) : List Nat :=
  [0b01100000, c.index % 256, c.index / 256 % 256, c.sub_index, 0, 0, 0, 0]

/-- `SdoCmdInitiateDownloadTx::decode` (src/lib.rs). -/
def SdoCmdInitiateDownloadTx.decode (frame : CanFrame) : DOut SdoCmdInitiateDownloadTx :=
  match sliceD frame.data 1 3 with
  | none => .panic
  | some ib =>
    match ib with
    | [i0, i1] =>
      match frame.data[3]? with
      | none => .panic
      | some sub_index => .ok { index := u16le i0 i1, sub_index := sub_index }
    | _ => .err (.ParseError ("not enough data"))

/-- `SdoCmdDownloadSegmentRx` (src/lib.rs). -/
structure SdoCmdDownloadSegmentRx where
  toggle : Bool
  data : List Nat
  last : Bool
  deriving DecidableEq

/-- `SdoCmdDownloadSegmentRx::encode` (src/lib.rs): byte 0 is
`(toggle << 4) | ((7 - len) << 1) | last`, data in bytes 1..1+len.  `none`
models the panic when more than 7 data bytes overflow the 8-byte buffer. -/
def SdoCmdDownloadSegmentRx.encode (c : SdoCmdDownloadSegmentRx) : Option (List Nat) :=
  if c.data.length ≤ 7 then
    some (overwrite [(c.toggle.toNat <<< 4) ||| ((7 - c.data.length) <<< 1) ||| c.last.toNat,
      0, 0, 0, 0, 0, 0, 0] 1 c.data)
  else none

/-- `SdoCmdDownloadSegmentRx::decode` (src/lib.rs): size is `7 - ((byte0 >> 1) & 0b111)`. -/
def SdoCmdDownloadSegmentRx.decode (frame : CanFrame) : DOut SdoCmdDownloadSegmentRx :=
  match frame.data[0]? with
  | none => .panic
  | some command_byte =>
    let size := 7 - (0b111 &&& (command_byte >>> 1))
    match sliceD frame.data 1 (1 + size) with
    | none => .panic
    | some d =>
      .ok { toggle := command_byte &&& 0b10000 != 0, data := d,
            last := command_byte &&& 0b1 != 0 }

/-- `SdoCmdDownloadSegmentTx` (src/lib.rs). -/
structure SdoCmdDownloadSegmentTx where
  toggle : Bool
  deriving DecidableEq

/-- `SdoCmdDownloadSegmentTx::encode` (src/lib.rs): byte 0 is `0b001 << 5 | (toggle << 4)`. -/
def SdoCmdDownloadSegmentTx.encode (c : SdoCmdDownloadSegmentTx) : List Nat :=
  [(0b001 <<< 5) ||| (c.toggle.toNat <<< 4), 0, 0, 0, 0, 0, 0, 0]

/-- `SdoCmdDownloadSegmentTx::decode` (src/lib.rs). -/
def SdoCmdDownloadSegmentTx.decode (frame : CanFrame) : DOut SdoCmdDownloadSegmentTx :=
  match frame.data[0]? with
  | none => .panic
  | some command_byte => .ok { toggle := command_byte &&& 0b10000 != 0 }

/-- `SdoCmdInitiateUploadRx` (src/lib.rs). -/
structure SdoCmdInitiateUploadRx where
  index : Nat
  sub_index : Nat
  deriving DecidableEq

/-- `SdoCmdInitiateUploadRx::encode` (src/lib.rs): command byte `0b010 << 5`. -/
def SdoCmdInitiateUploadRx.encode (c : SdoCmdInitiateUploadRx) : List Nat :=
  [0b010 <<< 5, c.index % 256, c.index / 256 % 256, c.sub_index, 0, 0, 0, 0]

/-- `SdoCmdInitiateUploadRx::decode` (src/lib.rs). -/
def SdoCmdInitiateUploadRx.decode (frame : CanFrame) : DOut SdoCmdInitiateUploadRx :=
  match sliceD frame.data 1 3 with
  | none => .panic
  | some ib =>
    match ib with
    | [i0, i1] =>
      match frame.data[3]? with
      | none => .panic
      | some sub_index => .ok { index := u16le i0 i1, sub_index := sub_index }
    | _ => .err (.ParseError ("not enough data"))

/-- `SdoCmdInitiateUploadTx` (src/lib.rs). -/
structure SdoCmdInitiateUploadTx where
  index : Nat
  sub_index : Nat
  payload : SdoCmdInitiatePayload
  deriving DecidableEq

/-- `SdoCmdInitiateUploadTx::encode` (src/lib.rs): command byte `0b010 << 5`,
then the initiate payload. -/
def SdoCmdInitiateUploadTx.encode (c : SdoCmdInitiateUploadTx) : Option (List Nat) :=
  c.payload.encode [0b010 <<< 5, c.index % 256, c.index / 256 % 256, c.sub_index, 0, 0, 0, 0]

/-- `SdoCmdInitiateUploadTx::decode` (src/lib.rs). -/
def SdoCmdInitiateUploadTx.decode (frame : CanFrame) : DOut SdoCmdInitiateUploadTx :=
  match sliceD frame.data 1 3 with
  | none => .panic
  | some ib =>
    match ib with
    | [i0, i1] =>
      match frame.data[3]? with
      | none => .panic
      | some sub_index =>
        match SdoCmdInitiatePayload.decode frame with
        | .panic => .panic
        | .err e => .err e
        | .ok payload =>
          .ok { index := u16le i0 i1, sub_index := sub_index, payload := payload }
    | _ => .err (.ParseError ("not enough data"))

/-- `SdoCmdUploadSegmentRx` (src/lib.rs). -/
structure SdoCmdUploadSegmentRx where
  toggle : Bool
  deriving DecidableEq

/-- `SdoCmdUploadSegmentRx::encode` (src/lib.rs): byte 0 is `0b011 << 5 | (toggle << 4)`. -/
def SdoCmdUploadSegmentRx.encode (c : SdoCmdUploadSegmentRx) : List Nat :=
  [(0b011 <<< 5) ||| (c.toggle.toNat <<< 4), 0, 0, 0, 0, 0, 0, 0]

/-- `SdoCmdUploadSegmentRx::decode` (src/lib.rs). -/
def SdoCmdUploadSegmentRx.decode (frame : CanFrame) : DOut SdoCmdUploadSegmentRx :=
  match frame.data[0]? with
  | none => .panic
  | some command_byte => .ok { toggle := command_byte &&& 0b10000 != 0 }

/-- `SdoCmdUploadSegmentTx` (src/lib.rs). -/
structure SdoCmdUploadSegmentTx where
  toggle : Bool
  data : List Nat
  last : Bool
  deriving DecidableEq

/-- `SdoCmdUploadSegmentTx::encode` (src/lib.rs): same layout as
`SdoCmdDownloadSegmentRx::encode`. -/
def SdoCmdUploadSegmentTx.encode (c : SdoCmdUploadSegmentTx) : Option (List Nat) :=
  if c.data.length ≤ 7 then
    some (overwrite [(c.toggle.toNat <<< 4) ||| ((7 - c.data.length) <<< 1) ||| c.last.toNat,
      0, 0, 0, 0, 0, 0, 0] 1 c.data)
  else none

/-- `SdoCmdUploadSegmentTx::decode` (src/lib.rs). -/
def SdoCmdUploadSegmentTx.decode (frame : CanFrame) : DOut SdoCmdUploadSegmentTx :=
  match frame.data[0]? with
  | none => .panic
  | some command_byte =>
    let size := 7 - (0b111 &&& (command_byte >>> 1))
    match sliceD frame.data 1 (1 + size) with
    | none => .panic
    | some d =>
      .ok { toggle := command_byte &&& 0b10000 != 0, data := d,
            last := command_byte &&& 0b1 != 0 }

/-- `SdoCmdAbortTransfer` (src/lib.rs). -/
structure SdoCmdAbortTransfer where
  index : Nat
  sub_index : Nat
  abort_code : AbortCode
  deriving DecidableEq

/-- `SdoCmdAbortTransfer::encode` (src/lib.rs): command byte `0b100 << 5`,
abort code little-endian in bytes 4..8. -/
def SdoCmdAbortTransfer.encode (c : SdoCmdAbortTransfer) : List Nat :=
  [0b100 <<< 5, c.index % 256, c.index / 256 % 256, c.sub_index] ++
    u32ToLe c.abort_code.encode

/-- `SdoCmdAbortTransfer::decode` (src/lib.rs): unknown abort codes give
`ParseError`. -/
def SdoCmdAbortTransfer.decode (frame : CanFrame) : DOut SdoCmdAbortTransfer :=
  match sliceD frame.data 1 3 with
  | none => .panic
  | some ib =>
    match ib with
    | [i0, i1] =>
      match frame.data[3]? with
      | none => .panic
      | some sub_index =>
        match sliceD frame.data 4 8 with
        | none => .panic
        | some cs =>
          match cs with
          | [c0, c1, c2, c3] =>
            match AbortCode.decode (u32le c0 c1 c2 c3) with
            | some abort_code =>
              .ok { index := u16le i0 i1, sub_index := sub_index, abort_code := abort_code }
            | none =>
              .err (.ParseError ("invalid abort code: " ++ toString (u32le c0 c1 c2 c3)))
          | _ => .panic
    | _ => .err (.ParseError ("not enough data"))

/-- `SdoCmd` (src/lib.rs). -/
inductive SdoCmd where
  | DownloadSegmentTx (c : SdoCmdDownloadSegmentTx)
  | InitiateDownloadTx (c : SdoCmdInitiateDownloadTx)
  | InitiateUploadTx (c : SdoCmdInitiateUploadTx)
  | UploadSegmentTx (c : SdoCmdUploadSegmentTx)
  | BlockUploadTx
  | BlockDownloadTx
  | DownloadSegmentRx (c : SdoCmdDownloadSegmentRx)
  | InitiateDownloadRx (c : SdoCmdInitiateDownloadRx)
  | InitiateUploadRx (c : SdoCmdInitiateUploadRx)
  | UploadSegmentRx (c : SdoCmdUploadSegmentRx)
  | BlockUploadRx
  | BlockDownloadRx
  | AbortTransfer (c : SdoCmdAbortTransfer)
  deriving DecidableEq

/-- `SdoCmd::is_response_to` (src/lib.rs): true exactly for the six
request/response counterpart pairs. -/
def SdoCmd.is_response_to (a b : SdoCmd) : Bool :=
  match a, b with
  | .DownloadSegmentRx _, .DownloadSegmentTx _ => true
  | .InitiateDownloadRx _, .InitiateDownloadTx _ => true
  | .InitiateUploadRx _, .InitiateUploadTx _ => true
  | .UploadSegmentRx _, .UploadSegmentTx _ => true
  | .BlockUploadRx, .BlockUploadTx => true
  | .BlockDownloadRx, .BlockDownloadTx => true
  | _, _ => false

/-- `SdoCmdSpec` (src/lib.rs). -/
inductive SdoCmdSpec where
  | DownloadSegment
  | InitiateDownload
  | InitiateUpload
  | UploadSegment
  | AbortTransfer
  | BlockUpload
  | BlockDownload
  deriving DecidableEq

/-- `SdoCmdSpec::from_byte` (src/lib.rs): the top three bits of the command
byte, interpreted relative to the direction. -/
def SdoCmdSpec.from_byte (byte : Nat) (reqres : ReqRes) : Except CanOpenError SdoCmdSpec :=
  match reqres, byte >>> 5 with
  | .Req, 0x00 => .ok .DownloadSegment
  | .Req, 0x01 => .ok .InitiateDownload
  | .Req, 0x02 => .ok .InitiateUpload
  | .Req, 0x03 => .ok .UploadSegment
  | .Res, 0x00 => .ok .UploadSegment
  | .Res, 0x01 => .ok .DownloadSegment
  | .Res, 0x02 => .ok .InitiateUpload
  | .Res, 0x03 => .ok .InitiateDownload
  | _, 0x04 => .ok .AbortTransfer
  | _, 0x05 => .ok .BlockUpload
  | _, 0x06 => .ok .BlockDownload
  | _, _ => .error (.ParseError ("bad client command specifier: " ++ toString byte))

/-- `Sdo` (src/lib.rs). -/
structure Sdo where
  node_id : Nat
  command : SdoCmd
  reqres : ReqRes
  deriving DecidableEq

/-- Lift a `DOut` through a constructor. -/
def DOut.map (f : α → β) : DOut α → DOut β
  | .panic => .panic
  | .err e => .err e
  | .ok a => .ok (f a)

/-- Body of `Sdo::decode` after the COB-ID has been classified (src/lib.rs
lines 642..682): dispatch on the command specifier and direction, then build
the `Sdo` from the decoded command. -/
def Sdo.decodeBody (node_id : Nat) (reqres : ReqRes) (frame : CanFrame) : DOut Sdo :=
  match frame.data[0]? with
  | none => .panic
  | some b0 =>
    match SdoCmdSpec.from_byte b0 reqres with
    | .error e => .err e
    | .ok spec =>
      let command : DOut SdoCmd :=
        match reqres, spec with
        | .Req, .InitiateDownload =>
          DOut.map SdoCmd.InitiateDownloadRx (SdoCmdInitiateDownloadRx.decode frame)
        | .Req, .DownloadSegment =>
          DOut.map SdoCmd.DownloadSegmentRx (SdoCmdDownloadSegmentRx.decode frame)
        | .Res, .InitiateDownload =>
          DOut.map SdoCmd.InitiateDownloadTx (SdoCmdInitiateDownloadTx.decode frame)
        | .Res, .DownloadSegment =>
          DOut.map SdoCmd.DownloadSegmentTx (SdoCmdDownloadSegmentTx.decode frame)
        | .Req, .InitiateUpload =>
          DOut.map SdoCmd.InitiateUploadRx (SdoCmdInitiateUploadRx.decode frame)
        | .Req, .UploadSegment =>
          DOut.map SdoCmd.UploadSegmentRx (SdoCmdUploadSegmentRx.decode frame)
        | .Res, .InitiateUpload =>
          DOut.map SdoCmd.InitiateUploadTx (SdoCmdInitiateUploadTx.decode frame)
        | .Res, .UploadSegment =>
          DOut.map SdoCmd.UploadSegmentTx (SdoCmdUploadSegmentTx.decode frame)
        | _, .AbortTransfer =>
          DOut.map SdoCmd.AbortTransfer (SdoCmdAbortTransfer.decode frame)
        | _, _ => .err (.NotYetImplemented ("block transfer"))
      match command with
      | .panic => .panic
      | .err e => .err e
      | .ok command => .ok { node_id := node_id, command := command, reqres := reqres }

/-- `Sdo::decode` (src/lib.rs): validates the COB-ID against the two SDO
ranges, derives node id and direction, then decodes the command. -/
def Sdo.decode (frame : CanFrame) : DOut Sdo :=
  match id_as_raw_std frame with
  | .error e => .err e
  | .ok id =>
    if ¬(0x580 ≤ id ∧ id ≤ 0x5FF) ∧ ¬(0x600 ≤ id ∧ id ≤ 0x67F) then
      .err (.BadMessage (toString id ++ " is not an SDO can id"))
    else
      Sdo.decodeBody (id &&& 0x7F) (ReqRes.from_u16_sdo id) frame

/-- `Sdo::encode` (src/lib.rs): COB-ID `node_id + reqres.to_u16_sdo()`, data
from the per-variant encoder.  `none` models the panics: `todo!()` for block
variants, `unreachable!()` for bad expedited lengths, buffer overflow for
segments longer than 7 bytes. -/
def Sdo.encode (s : Sdo) : Option CanFrame :=
  let id := CanId.std (s.node_id + s.reqres.to_u16_sdo)
  match s.command with
  | .InitiateUploadRx c => some { id := id, data := c.encode }
  | .InitiateDownloadRx c => c.encode.map fun d => { id := id, data := d }
  | .UploadSegmentRx c => some { id := id, data := c.encode }
  | .DownloadSegmentRx c => c.encode.map fun d => { id := id, data := d }
  | .InitiateUploadTx c => c.encode.map fun d => { id := id, data := d }
  | .InitiateDownloadTx c => some { id := id, data := c.encode }
  | .UploadSegmentTx c => c.encode.map fun d => { id := id, data := d }
  | .DownloadSegmentTx c => some { id := id, data := c.encode }
  | .AbortTransfer c => some { id := id, data := c.encode }
  | _ => none

/-- `Message` (src/lib.rs). -/
inductive Message where
  | Nmt (m : Nmt)
  | Sync (m : Sync)
  | Emergency (m : Emergency)
  | Pdo (m : Pdo)
  | Sdo (m : Sdo)
  | Guard (m : Guard)
  deriving DecidableEq

/-- `Conn::decode` (src/lib.rs): classify an inbound frame by COB-ID.  The
source calls `id_as_raw_std(frame).unwrap()`, so an extended id panics, and
the fall-through arm is `todo!()`, which panics as well. -/
def Conn.decode (frame : CanFrame) : DOut Message :=
  match id_as_raw_std frame with
  | .error _ => .panic
  | .ok id =>
    let protocol_id := id &&& 0xFF80
    let node_id := id &&& 0x007F
    if protocol_id = 0x000 then DOut.map Message.Nmt (Nmt.decode frame)
    else if protocol_id = 0x080 ∧ node_id = 0 then DOut.map Message.Sync (Sync.decode frame)
    else if protocol_id = 0x080 then DOut.map Message.Emergency (Emergency.decode frame)
    else if 0x180 ≤ protocol_id ∧ protocol_id ≤ 0x500 then
      DOut.map Message.Pdo (Pdo.decode frame)
    else if 0x580 ≤ protocol_id ∧ protocol_id ≤ 0x600 then
      DOut.map Message.Sdo (Sdo.decode frame)
    else if protocol_id = 0x700 then DOut.map Message.Guard (Guard.decode frame)
    else .panic

/-- `Conn::is_sdo_ack` (src/lib.rs): classify a received message while
waiting for an SDO ack. -/
def Conn.is_sdo_ack (message : Message) (command : SdoCmd) (node_id : Nat) :
    Except CanOpenError Bool :=
  match message with
  | .Sdo sdo =>
    if sdo.node_id = node_id then
      match sdo.command with
      | .AbortTransfer e => .error (.SdoAbortTransfer e.abort_code)
      | cmd => if SdoCmd.is_response_to command cmd then .ok true else .ok false
    else .ok false
  | _ => .ok false

/-- The `DownloadSegment` loop of `Conn::sdo_write` (src/lib.rs lines
1030..1044): one request per 7-byte chunk, toggle flipped after each. -/
def sdoWriteSegments (node_id : Nat) (data : List Nat) (n : Nat) (start : Nat)
    (toggle : Bool) : List Sdo :=
  if start < n then
    { node_id := node_id,
      command := SdoCmd.DownloadSegmentRx
        { toggle := toggle,
          data := (data.drop start).take (min (start + 7) n - start),
          last := decide (start + 7 ≥ n) },
      reqres := ReqRes.Req } ::
      sdoWriteSegments node_id data n (start + 7) (!toggle)
  else []
termination_by n - start
decreasing_by simp_wf; omega

/-- `Conn::sdo_write` (src/lib.rs), modelled as the ordered list of SDO
requests it sends when every `send_sdo_acked` receives its matching
response.  The `match data.len()` dispatch, the `u32` overflow check on the
segmented total size, and the segment loop follow the source; transport
errors and abort handling live in `send_sdo_acked` (see `Conn.is_sdo_ack`)
and are orthogonal to the emitted sequence. -/
def Conn.sdo_write (node_id index sub_index : Nat) (data : List Nat) :
    Except CanOpenError (List Sdo) :=
  if data.length = 0 then .ok []
  else if data.length ≤ 4 then
    .ok [{ node_id := node_id,
           command := SdoCmd.InitiateDownloadRx
             { index := index, sub_index := sub_index,
               payload := SdoCmdInitiatePayload.Expedited data },
           reqres := ReqRes.Req }]
  else if data.length < 2 ^ 32 then
    .ok ({ node_id := node_id,
           command := SdoCmd.InitiateDownloadRx
             { index := index, sub_index := sub_index,
               payload := SdoCmdInitiatePayload.Segmented (some data.length) },
           reqres := ReqRes.Req } ::
      sdoWriteSegments node_id data data.length 0 false)
  else .error (.OverflowError ("out of range integral type conversion attempted"))

/-- Direction consistency for an SDO command: `Rx` variants travel as
requests (COB-ID `0x600 + node`), `Tx` variants as responses
(`0x580 + node`), `AbortTransfer` in either direction; block variants are
excluded (their encoder is `todo!()`). -/
def dirMatch : SdoCmd → ReqRes → Bool
  | .InitiateDownloadRx _, .Req => true
  | .DownloadSegmentRx _, .Req => true
  | .InitiateUploadRx _, .Req => true
  | .UploadSegmentRx _, .Req => true
  | .InitiateDownloadTx _, .Res => true
  | .DownloadSegmentTx _, .Res => true
  | .InitiateUploadTx _, .Res => true
  | .UploadSegmentTx _, .Res => true
  | .AbortTransfer _, _ => true
  | _, _ => false

/-- Well-formedness of an initiate payload, matching the Rust types and the
encoder's preconditions: expedited data has 1..=4 bytes (the encoder's
`unreachable!()` otherwise), a segmented size fits in a `u32`. -/
def payloadWF : SdoCmdInitiatePayload → Bool
  | .Expedited d => decide (1 ≤ d.length) && decide (d.length ≤ 4)
  | .Segmented (some size) => decide (size < 2 ^ 32)
  | .Segmented none => true

/-- Well-formedness of an SDO command, matching the Rust field types
(`index : u16`) and the encoder preconditions (segment data fits the 7-byte
area). -/
def SdoCmdWF : SdoCmd → Bool
  | .InitiateDownloadRx c => decide (c.index < 2 ^ 16) && payloadWF c.payload
  | .InitiateDownloadTx c => decide (c.index < 2 ^ 16)
  | .InitiateUploadRx c => decide (c.index < 2 ^ 16)
  | .InitiateUploadTx c => decide (c.index < 2 ^ 16) && payloadWF c.payload
  | .DownloadSegmentRx c => decide (c.data.length ≤ 7)
  | .UploadSegmentTx c => decide (c.data.length ≤ 7)
  | .DownloadSegmentTx _ => true
  | .UploadSegmentRx _ => true
  | .AbortTransfer c => decide (c.index < 2 ^ 16)
  | _ => false

/-- Stated from the claim (C6): the sequence of SDO requests `sdo_write`
sends, described non-recursively: nothing for empty data, one expedited
initiate for 1..=4 bytes, otherwise a segmented initiate with the total size
followed by one `DownloadSegmentRx` per 7-byte chunk `k`, with toggle
alternating starting at `false` (so chunk `k` has toggle `k % 2 = 1`) and
`last = (offset + 7 ≥ |data|)`; an overflowing `u32` size fails with
`OverflowError`. -/
def sdoWriteSpec (node_id index sub_index : Nat) (data : List Nat) :
    Except CanOpenError (List Sdo) :=
  if data.length = 0 then .ok []
  else if data.length ≤ 4 then
    .ok [{ node_id := node_id,
           command := SdoCmd.InitiateDownloadRx
             { index := index, sub_index := sub_index,
               payload := SdoCmdInitiatePayload.Expedited data },
           reqres := ReqRes.Req }]
  else if data.length < 2 ^ 32 then
    .ok ({ node_id := node_id,
           command := SdoCmd.InitiateDownloadRx
             { index := index, sub_index := sub_index,
               payload := SdoCmdInitiatePayload.Segmented (some data.length) },
           reqres := ReqRes.Req } ::
      (List.range ((data.length + 6) / 7)).map fun k =>
        { node_id := node_id,
          command := SdoCmd.DownloadSegmentRx
            { toggle := decide (k % 2 = 1),
              data := (data.drop (7 * k)).take 7,
              last := decide (7 * k + 7 ≥ data.length) },
          reqres := ReqRes.Req })
  else .error (.OverflowError ("out of range integral type conversion attempted"))

/-- The union of all match arms of `EmergencyErrorCode::decode`: exact codes
plus the range buckets.  A code outside this table hits the fall-through
`ParseError` arm. -/
def emcyInTable (c : Nat) : Prop :=
  c = 0x8110 ∨ c = 0x8120 ∨ c = 0x8130 ∨ c = 0x8140 ∨ c = 0x8150 ∨
  c = 0x8210 ∨ c = 0x8220 ∨ c = 0x8230 ∨ c = 0x8240 ∨ c = 0x8250 ∨
  (0x2100 ≤ c ∧ c ≤ 0x21FF) ∨ (0x2200 ≤ c ∧ c ≤ 0x22FF) ∨ (0x2300 ≤ c ∧ c ≤ 0x23FF) ∨
  (0x3100 ≤ c ∧ c ≤ 0x31FF) ∨ (0x3200 ≤ c ∧ c ≤ 0x32FF) ∨ (0x3300 ≤ c ∧ c ≤ 0x33FF) ∨
  (0x4100 ≤ c ∧ c ≤ 0x41FF) ∨ (0x4200 ≤ c ∧ c ≤ 0x42FF) ∨
  (0x6100 ≤ c ∧ c ≤ 0x61FF) ∨ (0x6200 ≤ c ∧ c ≤ 0x62FF) ∨ (0x6300 ≤ c ∧ c ≤ 0x63FF) ∨
  (0x8111 ≤ c ∧ c ≤ 0x811F) ∨ (0x8121 ≤ c ∧ c ≤ 0x812F) ∨ (0x8131 ≤ c ∧ c ≤ 0x813F) ∨
  (0x8141 ≤ c ∧ c ≤ 0x814F) ∨ (0x8151 ≤ c ∧ c ≤ 0x81FF) ∨
  (0x8211 ≤ c ∧ c ≤ 0x821F) ∨ (0x8221 ≤ c ∧ c ≤ 0x822F) ∨ (0x8231 ≤ c ∧ c ≤ 0x823F) ∨
  (0x8241 ≤ c ∧ c ≤ 0x824F) ∨ (0x8251 ≤ c ∧ c ≤ 0x82FF) ∨
  (0x2000 ≤ c ∧ c ≤ 0x20FF) ∨ (0x3000 ≤ c ∧ c ≤ 0x30FF) ∨ (0x4000 ≤ c ∧ c ≤ 0x40FF) ∨
  (0x5000 ≤ c ∧ c ≤ 0x50FF) ∨ (0x6000 ≤ c ∧ c ≤ 0x60FF) ∨ (0x7000 ≤ c ∧ c ≤ 0x70FF) ∨
  (0x8000 ≤ c ∧ c ≤ 0x80FF) ∨ (0x8200 ≤ c ∧ c ≤ 0x820F) ∨ (0x9000 ≤ c ∧ c ≤ 0x90FF) ∨
  (0xF000 ≤ c ∧ c ≤ 0xF0FF) ∨ (0xFF00 ≤ c ∧ c ≤ 0xFFFF) ∨
  c ≤ 0x00FF ∨ (0x1000 ≤ c ∧ c ≤ 0x10FF)

/-- C3 counterexample: 0x8100 lies in `0x81xx`, is not one of the exact
codes, yet decodes to `ParseError` rather than `Communication`: the
`0x8100..=0x810F` sub-range is absent from the decode table. -/
theorem emcy_code_unclaimed_0x8100_cex :
    EmergencyErrorCode.decode 0x8100 ≠ Except.ok EmergencyErrorCode.Communication ∧
    EmergencyErrorCode.decode 0x8100 =
      Except.error (CanOpenError.ParseError ("bad error code: " ++ toString 0x8100)) :=
  ⟨by decide, rfl⟩

set_option maxRecDepth 4000 in
theorem emcyKeyComm : ∀ k, k < 0xF0 → k = 0 ∨ k = 0x10 ∨ k = 0x20 ∨ k = 0x30 ∨ k = 0x40 ∨
    EmergencyErrorCode.decode (0x8110 + k) = .ok .Communication := by decide

set_option maxRecDepth 4000 in
theorem emcyKeyMissing : ∀ k, k < 16 →
    EmergencyErrorCode.decode (0x8100 + k) =
      .error (.ParseError ("bad error code: " ++ toString (0x8100 + k))) := by decide

set_option maxRecDepth 4000 in
theorem emcyKeyProto : ∀ k, k < 256 → k = 0x10 ∨ k = 0x20 ∨ k = 0x30 ∨ k = 0x40 ∨ k = 0x50 ∨
    EmergencyErrorCode.decode (0x8200 + k) = .ok .ProtocolError := by decide

/-- C3 (amended): the ten exact `0x81xx`/`0x82xx` codes decode to their
specific variants ahead of the range buckets; every other code in
`0x8110..=0x81FF` decodes to `Communication` and in `0x8200..=0x82FF` to
`ProtocolError`; but `0x8100..=0x810F` is unclaimed by any arm and fails
with `ParseError`, as does every code outside the decode table. -/
theorem emcy_code_decode_amended :
    (EmergencyErrorCode.decode 0x8110 = .ok .CommunicationCanOverrun ∧
     EmergencyErrorCode.decode 0x8120 = .ok .CommunicationErrorPassiveMode ∧
     EmergencyErrorCode.decode 0x8130 = .ok .CommunicationLifeGuardError ∧
     EmergencyErrorCode.decode 0x8140 = .ok .CommunicationRecoveredBusOff ∧
     EmergencyErrorCode.decode 0x8150 = .ok .CommunicationCanIdCollision ∧
     EmergencyErrorCode.decode 0x8210 = .ok .ProtocolErrorPdoLength ∧
     EmergencyErrorCode.decode 0x8220 = .ok .ProtocolErrorPdoLengthExceeded ∧
     EmergencyErrorCode.decode 0x8230 = .ok .ProtocolErrorDamMpdo ∧
     EmergencyErrorCode.decode 0x8240 = .ok .ProtocolErrorUnexpectedSyncLength ∧
     EmergencyErrorCode.decode 0x8250 = .ok .ProtocolErrorRpdoTimeout) ∧
    (∀ c, 0x8110 ≤ c → c ≤ 0x81FF → c ≠ 0x8110 → c ≠ 0x8120 → c ≠ 0x8130 →
      c ≠ 0x8140 → c ≠ 0x8150 →
      EmergencyErrorCode.decode c = .ok .Communication) ∧
    (∀ c, 0x8100 ≤ c → c ≤ 0x810F →
      EmergencyErrorCode.decode c =
        .error (.ParseError ("bad error code: " ++ toString c))) ∧
    (∀ c, 0x8200 ≤ c → c ≤ 0x82FF → c ≠ 0x8210 → c ≠ 0x8220 → c ≠ 0x8230 →
      c ≠ 0x8240 → c ≠ 0x8250 →
      EmergencyErrorCode.decode c = .ok .ProtocolError) ∧
    (∀ c, ¬ emcyInTable c →
      EmergencyErrorCode.decode c =
        .error (.ParseError ("bad error code: " ++ toString c))) := by
  refine ⟨⟨rfl, rfl, rfl, rfl, rfl, rfl, rfl, rfl, rfl, rfl⟩, ?_, ?_, ?_, ?_⟩
  · intro c h1 h2 h3 h4 h5 h6 h7
    have h0 : c = 0x8110 + (c - 0x8110) := by omega
    rw [h0]
    rcases emcyKeyComm (c - 0x8110) (by omega) with hk | hk | hk | hk | hk | hk <;>
      first | omega | exact hk
  · intro c h1 h2
    have h0 : c = 0x8100 + (c - 0x8100) := by omega
    rw [h0]
    exact emcyKeyMissing (c - 0x8100) (by omega)
  · intro c h1 h2 h3 h4 h5 h6 h7
    have h0 : c = 0x8200 + (c - 0x8200) := by omega
    rw [h0]
    rcases emcyKeyProto (c - 0x8200) (by omega) with hk | hk | hk | hk | hk | hk <;>
      first | omega | exact hk
  · intro c h
    unfold emcyInTable at h
    unfold EmergencyErrorCode.decode
    rw [if_neg (by omega : ¬(c = 0x8110))]
    rw [if_neg (by omega : ¬(c = 0x8120))]
    rw [if_neg (by omega : ¬(c = 0x8130))]
    rw [if_neg (by omega : ¬(c = 0x8140))]
    rw [if_neg (by omega : ¬(c = 0x8150))]
    rw [if_neg (by omega : ¬(c = 0x8210))]
    rw [if_neg (by omega : ¬(c = 0x8220))]
    rw [if_neg (by omega : ¬(c = 0x8230))]
    rw [if_neg (by omega : ¬(c = 0x8240))]
    rw [if_neg (by omega : ¬(c = 0x8250))]
    rw [if_neg (by omega : ¬(0x2100 ≤ c ∧ c ≤ 0x21FF))]
    rw [if_neg (by omega : ¬(0x2200 ≤ c ∧ c ≤ 0x22FF))]
    rw [if_neg (by omega : ¬(0x2300 ≤ c ∧ c ≤ 0x23FF))]
    rw [if_neg (by omega : ¬(0x3100 ≤ c ∧ c ≤ 0x31FF))]
    rw [if_neg (by omega : ¬(0x3200 ≤ c ∧ c ≤ 0x32FF))]
    rw [if_neg (by omega : ¬(0x3300 ≤ c ∧ c ≤ 0x33FF))]
    rw [if_neg (by omega : ¬(0x4100 ≤ c ∧ c ≤ 0x41FF))]
    rw [if_neg (by omega : ¬(0x4200 ≤ c ∧ c ≤ 0x42FF))]
    rw [if_neg (by omega : ¬(0x6100 ≤ c ∧ c ≤ 0x61FF))]
    rw [if_neg (by omega : ¬(0x6200 ≤ c ∧ c ≤ 0x62FF))]
    rw [if_neg (by omega : ¬(0x6300 ≤ c ∧ c ≤ 0x63FF))]
    rw [if_neg (by omega : ¬(0x8111 ≤ c ∧ c ≤ 0x811F))]
    rw [if_neg (by omega : ¬(0x8121 ≤ c ∧ c ≤ 0x812F))]
    rw [if_neg (by omega : ¬(0x8131 ≤ c ∧ c ≤ 0x813F))]
    rw [if_neg (by omega : ¬(0x8141 ≤ c ∧ c ≤ 0x814F))]
    rw [if_neg (by omega : ¬(0x8151 ≤ c ∧ c ≤ 0x81FF))]
    rw [if_neg (by omega : ¬(0x8211 ≤ c ∧ c ≤ 0x821F))]
    rw [if_neg (by omega : ¬(0x8221 ≤ c ∧ c ≤ 0x822F))]
    rw [if_neg (by omega : ¬(0x8231 ≤ c ∧ c ≤ 0x823F))]
    rw [if_neg (by omega : ¬(0x8241 ≤ c ∧ c ≤ 0x824F))]
    rw [if_neg (by omega : ¬(0x8251 ≤ c ∧ c ≤ 0x82FF))]
    rw [if_neg (by omega : ¬(0x2000 ≤ c ∧ c ≤ 0x20FF))]
    rw [if_neg (by omega : ¬(0x3000 ≤ c ∧ c ≤ 0x30FF))]
    rw [if_neg (by omega : ¬(0x4000 ≤ c ∧ c ≤ 0x40FF))]
    rw [if_neg (by omega : ¬(0x5000 ≤ c ∧ c ≤ 0x50FF))]
    rw [if_neg (by omega : ¬(0x6000 ≤ c ∧ c ≤ 0x60FF))]
    rw [if_neg (by omega : ¬(0x7000 ≤ c ∧ c ≤ 0x70FF))]
    rw [if_neg (by omega : ¬(0x8000 ≤ c ∧ c ≤ 0x80FF))]
    rw [if_neg (by omega : ¬(0x8200 ≤ c ∧ c ≤ 0x820F))]
    rw [if_neg (by omega : ¬(0x9000 ≤ c ∧ c ≤ 0x90FF))]
    rw [if_neg (by omega : ¬(0xF000 ≤ c ∧ c ≤ 0xF0FF))]
    rw [if_neg (by omega : ¬(0xFF00 ≤ c ∧ c ≤ 0xFFFF))]
    rw [if_neg (by omega : ¬(c ≤ 0x00FF))]
    rw [if_neg (by omega : ¬(0x1000 ≤ c ∧ c ≤ 0x10FF))]

/-- C3 witness: the amended theorem applied at 0x8155 (unclaimed within
0x81xx, above 0x810F) and at 0x8105 (in the missing sub-range). -/
theorem emcy_code_decode_amended_witness :
    EmergencyErrorCode.decode 0x8155 = .ok .Communication ∧
    EmergencyErrorCode.decode 0x8105 =
      .error (.ParseError ("bad error code: " ++ toString 0x8105)) :=
  ⟨emcy_code_decode_amended.2.1 0x8155 (by decide) (by decide) (by decide) (by decide)
      (by decide) (by decide) (by decide),
   emcy_code_decode_amended.2.2.1 0x8105 (by decide) (by decide)⟩

/-- C4: `Conn::decode` calls `id_as_raw_std(frame).unwrap()`, so every frame
with an extended (29-bit) identifier panics instead of returning the
`CanVersion` error that `id_as_raw_std` constructs. -/
theorem conn_decode_extended_id_panics :
    ∀ (i : Nat) (d : List Nat), Conn.decode { id := CanId.ext i, data := d } = DOut.panic :=
  fun _ _ => rfl

/-- C7: COB-IDs whose protocol id falls outside the classified ranges (for
example 0x100, 0x680, 0x780) hit the `todo!()` arm of `Conn::decode` and
panic; the declared `UnknownFrameRWType` error is never produced. -/
theorem conn_decode_unclassified_cobid_panics :
    Conn.decode { id := CanId.std 0x100, data := [] } = DOut.panic ∧
    Conn.decode { id := CanId.std 0x680, data := [] } = DOut.panic ∧
    Conn.decode { id := CanId.std 0x780, data := [] } = DOut.panic :=
  ⟨rfl, rfl, rfl⟩

/-- C5 counterexample: an expedited 1-byte InitiateDownload encodes command
byte 0x2F, whose bits 2..3 hold 0b11 = 3 = 4 - 1, not 7 - 1 as the claim
states. -/
theorem sdo_expedited_n_field_cex :
    Sdo.encode
        { node_id := 10,
          command := SdoCmd.InitiateDownloadRx
            { index := 1, sub_index := 2, payload := SdoCmdInitiatePayload.Expedited [5] },
          reqres := ReqRes.Req } =
      some { id := CanId.std 0x60A, data := [0x2F, 1, 0, 2, 5, 0, 0, 0] } ∧
    (0x2F >>> 2) &&& 0b11 ≠ 7 - 1 :=
  ⟨rfl, by decide⟩

/-- C5 (amended): an expedited InitiateDownload with 1..=4 data bytes
encodes the unused-byte count `n = 4 - len` into bits 2..3 of the command
byte and zero-fills the unused payload bytes 4+len..8 of the 8-byte frame. -/
theorem sdo_expedited_n_field_amended :
    ∀ (index sub_index : Nat) (d : List Nat), 1 ≤ d.length → d.length ≤ 4 →
    ∃ enc, SdoCmdInitiateDownloadRx.encode
        { index := index, sub_index := sub_index,
          payload := SdoCmdInitiatePayload.Expedited d } = some enc ∧
      ((enc.getD 0 0) >>> 2) &&& 0b11 = 4 - d.length ∧
      (∀ i, 4 + d.length ≤ i → i < 8 → enc.getD i 0 = 0) ∧
      enc.length = 8 := by
  intro index sub_index d h1 h2
  rcases d with _ | ⟨a, _ | ⟨b, _ | ⟨c, _ | ⟨e, _ | ⟨f, tl⟩⟩⟩⟩⟩
  · simp at h1
  · refine ⟨[0x2F, index % 256, index / 256 % 256, sub_index, a, 0, 0, 0], ?_, by simp; try decide, ?_, rfl⟩
    · unfold SdoCmdInitiateDownloadRx.encode SdoCmdInitiatePayload.encode
      simp [overwrite]
    · intro i hi1 hi2
      simp only [List.length_cons, List.length_nil] at hi1
      interval_cases i <;> rfl
  · refine ⟨[0x2B, index % 256, index / 256 % 256, sub_index, a, b, 0, 0], ?_, by simp; try decide, ?_, rfl⟩
    · unfold SdoCmdInitiateDownloadRx.encode SdoCmdInitiatePayload.encode
      simp [overwrite]
    · intro i hi1 hi2
      simp only [List.length_cons, List.length_nil] at hi1
      interval_cases i <;> rfl
  · refine ⟨[0x27, index % 256, index / 256 % 256, sub_index, a, b, c, 0], ?_, by simp; try decide, ?_, rfl⟩
    · unfold SdoCmdInitiateDownloadRx.encode SdoCmdInitiatePayload.encode
      simp [overwrite]
    · intro i hi1 hi2
      simp only [List.length_cons, List.length_nil] at hi1
      interval_cases i <;> rfl
  · refine ⟨[0x23, index % 256, index / 256 % 256, sub_index, a, b, c, e], ?_, by simp; try decide, ?_, rfl⟩
    · unfold SdoCmdInitiateDownloadRx.encode SdoCmdInitiatePayload.encode
      simp [overwrite]
    · intro i hi1 hi2
      simp only [List.length_cons, List.length_nil] at hi1
      omega
  · simp only [List.length_cons] at h2; omega

/-- C5 witness: the amended theorem at a concrete 2-byte expedited write. -/
theorem sdo_expedited_n_field_amended_witness :
    ∃ enc, SdoCmdInitiateDownloadRx.encode
        { index := 1, sub_index := 2, payload := SdoCmdInitiatePayload.Expedited [5, 6] } =
        some enc ∧
      ((enc.getD 0 0) >>> 2) &&& 0b11 = 4 - ([5, 6] : List Nat).length ∧
      (∀ i, 4 + ([5, 6] : List Nat).length ≤ i → i < 8 → enc.getD i 0 = 0) ∧
      enc.length = 8 :=
  sdo_expedited_n_field_amended 1 2 [5, 6] (by decide) (by decide)

/-- C9 counterexample: a zero-length frame in the PDO COB-ID range decodes
to a `Pdo` whose data length is 0, violating the 1..=8 invariant. -/
theorem pdo_len_invariant_cex :
    ∃ p, Pdo.decode { id := CanId.std 0x20A, data := [] } = DOut.ok p ∧
      ¬(1 ≤ p.data.length ∧ p.data.length ≤ 8) :=
  ⟨_, rfl, by decide⟩

/-- C9 (amended): the `Pdo::new` constructor accepts exactly data lengths
1..=8, rejecting the rest with `BadMessage`; but `Pdo::decode` copies the
frame payload verbatim with no length check, so a decoded `Pdo` has data of
the frame's payload length — at most 8 for a real CAN frame, but possibly
0. -/
theorem pdo_len_invariant_amended :
    (∀ (n i : Nat) (d : List Nat), ¬(1 ≤ d.length ∧ d.length ≤ 8) →
      Pdo.new n i d = .error (.BadMessage ("got " ++ toString d.length ++
        " bytes of PDO data, expected between 1 and 8 bytes"))) ∧
    (∀ (n i : Nat) (d : List Nat), 1 ≤ d.length → d.length ≤ 8 →
      Pdo.new n i d = .ok { node_id := n, pdo_index := i, reqres := .Req, data := d }) ∧
    (∀ (f : CanFrame) (p : Pdo), Pdo.decode f = DOut.ok p → p.data = f.data) := by
  refine ⟨?_, ?_, ?_⟩
  · intro n i d h
    unfold Pdo.new
    rw [if_pos h]
  · intro n i d h1 h2
    unfold Pdo.new
    rw [if_neg (fun hc => hc ⟨h1, h2⟩)]
  · intro f p h
    rcases f with ⟨fid, fdata⟩
    cases fid with
    | std s =>
      simp only [Pdo.decode, id_as_raw_std] at h
      cases h
      rfl
    | ext e => simp only [Pdo.decode, id_as_raw_std] at h; cases h

/-- C9 witness: the amended theorem's constructor and decode parts at
concrete inputs. -/
theorem pdo_len_invariant_amended_witness :
    Pdo.new 10 1 [3, 4, 0] =
      .ok { node_id := 10, pdo_index := 1, reqres := .Req, data := [3, 4, 0] } ∧
    ((Pdo.decode { id := CanId.std 0x20A, data := [] }) = DOut.ok
      { node_id := 10, pdo_index := 2, reqres := .Res, data := [] } →
      ([] : List Nat) = []) :=
  ⟨pdo_len_invariant_amended.2.1 10 1 [3, 4, 0] (by decide) (by decide),
   fun h => pdo_len_invariant_amended.2.2 { id := CanId.std 0x20A, data := [] } _ h⟩

/-- C8: classification of a received message during SDO ack-waiting: an
`AbortTransfer` SDO addressed to the target node fails with
`SdoAbortTransfer`; the response counterpart of the sent request is
accepted; SDOs for other nodes, non-matching SDO commands, and non-SDO
messages are all classified as non-matching (`Ok(false)`), not errors. -/
theorem is_sdo_ack_classification :
    ∀ (s : Sdo) (sent : SdoCmd) (nid : Nat),
      (∀ a, s.node_id = nid → s.command = SdoCmd.AbortTransfer a →
        Conn.is_sdo_ack (Message.Sdo s) sent nid = .error (.SdoAbortTransfer a.abort_code)) ∧
      (s.node_id = nid → (∀ a, s.command ≠ SdoCmd.AbortTransfer a) →
        SdoCmd.is_response_to sent s.command = true →
        Conn.is_sdo_ack (Message.Sdo s) sent nid = .ok true) ∧
      (s.node_id ≠ nid → Conn.is_sdo_ack (Message.Sdo s) sent nid = .ok false) ∧
      (s.node_id = nid → (∀ a, s.command ≠ SdoCmd.AbortTransfer a) →
        SdoCmd.is_response_to sent s.command = false →
        Conn.is_sdo_ack (Message.Sdo s) sent nid = .ok false) ∧
      (∀ m : Message, (∀ s2, m ≠ Message.Sdo s2) → Conn.is_sdo_ack m sent nid = .ok false) := by
  intro s sent nid
  obtain ⟨snid, scmd, srr⟩ := s
  refine ⟨?_, ?_, ?_, ?_, ?_⟩
  · intro a h1 h2
    cases h2
    simp only [Conn.is_sdo_ack]
    rw [if_pos h1]
  · intro h1 hno h3
    cases scmd <;> first
      | exact absurd rfl (hno _)
      | (simp only [Conn.is_sdo_ack]
         rw [if_pos h1, if_pos h3])
  · intro h
    simp only [Conn.is_sdo_ack]
    rw [if_neg h]
  · intro h1 hno h3
    cases scmd <;> first
      | exact absurd rfl (hno _)
      | (simp only [Conn.is_sdo_ack]
         rw [if_pos h1]
         simp [h3])
  · intro m hm
    cases m <;> first
      | exact absurd rfl (hm _)
      | rfl

/-- C8 witness: the classification applied at concrete messages — an abort
from the target node and a matching InitiateDownload response. -/
theorem is_sdo_ack_classification_witness :
    Conn.is_sdo_ack
      (Message.Sdo
        { node_id := 5,
          command := SdoCmd.AbortTransfer { index := 1, sub_index := 2, abort_code := .CrcError },
          reqres := ReqRes.Res })
      (SdoCmd.InitiateDownloadRx
        { index := 1, sub_index := 2, payload := SdoCmdInitiatePayload.Expedited [1] }) 5 =
      .error (.SdoAbortTransfer AbortCode.CrcError) ∧
    Conn.is_sdo_ack
      (Message.Sdo
        { node_id := 5,
          command := SdoCmd.InitiateDownloadTx { index := 1, sub_index := 2 },
          reqres := ReqRes.Res })
      (SdoCmd.InitiateDownloadRx
        { index := 1, sub_index := 2, payload := SdoCmdInitiatePayload.Expedited [1] }) 5 =
      .ok true :=
  ⟨(is_sdo_ack_classification _ _ 5).1 _ rfl rfl,
   (is_sdo_ack_classification _ _ 5).2.1 rfl (by intro a h; cases h) rfl⟩

theorem segments_chunk_eq (data : List Nat) (s : Nat) (h : s < data.length) :
    (data.drop s).take (min (s + 7) data.length - s) = (data.drop s).take 7 := by
  rcases le_or_lt (s + 7) data.length with hle | hlt
  · rw [min_eq_left hle]
    congr 1
    omega
  · rw [min_eq_right (by omega)]
    have h1 : (data.drop s).take (data.length - s) = data.drop s := by
      rw [← List.length_drop s data]
      exact List.take_length _
    have h2 : (data.drop s).take 7 = data.drop s := by
      apply List.take_of_length_le
      rw [List.length_drop]
      omega
    rw [h1, h2]

theorem toggle_succ (t : Bool) (k : Nat) :
    xor t (decide ((k + 1) % 2 = 1)) = xor (!t) (decide (k % 2 = 1)) := by
  by_cases hk : k % 2 = 1
  · have h1 : (k + 1) % 2 = 0 := by omega
    simp [hk, h1]
  · have h1 : (k + 1) % 2 = 1 := by omega
    simp [hk, h1]

theorem sdoWriteSegments_eq (node_id : Nat) (data : List Nat) (n : Nat) :
    ∀ (m start : Nat) (t : Bool), n - start = m →
      sdoWriteSegments node_id data n start t =
      (List.range ((n - start + 6) / 7)).map (fun k =>
        { node_id := node_id,
          command := SdoCmd.DownloadSegmentRx
            { toggle := xor t (decide (k % 2 = 1)),
              data := (data.drop (start + 7 * k)).take (min (start + 7 * k + 7) n - (start + 7 * k)),
              last := decide (start + 7 * k + 7 ≥ n) },
          reqres := ReqRes.Req }) := by
  intro m
  induction m using Nat.strong_induction_on with
  | _ m ih =>
    intro start t hm
    rw [sdoWriteSegments]
    by_cases h : start < n
    · rw [if_pos h]
      have hc : (n - start + 6) / 7 = (n - (start + 7) + 6) / 7 + 1 := by omega
      rw [hc, List.range_succ_eq_map, List.map_cons, List.map_map,
        ih (n - (start + 7)) (by omega) (start + 7) (!t) rfl]
      congr 1
      · simp
      · apply List.map_congr_left
        intro k hk
        have harr : start + 7 * (k + 1) = start + 7 + 7 * k := by ring
        simp only [Function.comp_apply, toggle_succ, harr]
    · rw [if_neg h]
      have hc : (n - start + 6) / 7 = 0 := by omega
      rw [hc]
      rfl

/-- C6: `sdo_write` dispatches on the data length: empty data sends
nothing and succeeds; 1..=4 bytes send one expedited InitiateDownload
request carrying the data; more than 4 bytes send a segmented
InitiateDownload with total size `|data|` followed by one DownloadSegment
request per 7-byte chunk from offset 0, toggle alternating starting at
`false` and `last = (offset + 7 ≥ |data|)`; a length not fitting in `u32`
fails with `OverflowError`. -/
theorem sdo_write_plan :
    ∀ (node_id index sub_index : Nat) (data : List Nat),
      Conn.sdo_write node_id index sub_index data = sdoWriteSpec node_id index sub_index data := by
  intro node_id index sub_index data
  unfold Conn.sdo_write sdoWriteSpec
  by_cases h0 : data.length = 0
  · rw [if_pos h0, if_pos h0]
  · rw [if_neg h0, if_neg h0]
    by_cases h4 : data.length ≤ 4
    · rw [if_pos h4, if_pos h4]
    · rw [if_neg h4, if_neg h4]
      by_cases h32 : data.length < 2 ^ 32
      · rw [if_pos h32, if_pos h32]
        congr 1
        congr 1
        rw [sdoWriteSegments_eq node_id data data.length (data.length - 0) 0 false rfl]
        simp only [Nat.sub_zero]
        apply List.map_congr_left
        intro k hk
        rw [List.mem_range] at hk
        have hlt : 7 * k < data.length := by omega
        have hchunk := segments_chunk_eq data (7 * k) hlt
        simp only [Nat.zero_add, hchunk]
        simp
      · rw [if_neg h32, if_neg h32]

theorem emcyEncLt : ∀ ec : EmergencyErrorCode, ec.encode < 65536 := by
  intro ec; cases ec <;> decide

theorem pdoBits : ∀ n, n < 128 → ∀ i, i < 8 →
    (n + (i <<< 8)) &&& 0x80 = 0 ∧ ((n + (i <<< 8)) &&& 0x700) >>> 8 = i ∧
    (n + (i <<< 8)) &&& 0x7F = n := by decide

/-- C2 counterexample: three concrete failures of `decode(encode(m)) = m`:
a Req-direction PDO comes back as a different PDO (direction Res, index 2),
a Guard loses its node id (decoded as 0), and an Emergency carrying the
canonical `Communication` code 0x8100 fails to decode at all. -/
theorem frame_codec_roundtrip_cex :
    Pdo.decode (Pdo.encode { node_id := 10, pdo_index := 1, reqres := .Req, data := [3, 4, 0] }) =
      DOut.ok { node_id := 10, pdo_index := 2, reqres := .Res, data := [3, 4, 0] } ∧
    ({ node_id := 10, pdo_index := 2, reqres := .Res, data := [3, 4, 0] } : Pdo) ≠
      { node_id := 10, pdo_index := 1, reqres := .Req, data := [3, 4, 0] } ∧
    Guard.decode (Guard.encode { node_id := 10, toggle := false, status := .Operational }) =
      DOut.ok { node_id := 0, toggle := false, status := GuardStatus.Operational } ∧
    ({ node_id := 0, toggle := false, status := GuardStatus.Operational } : Guard) ≠
      { node_id := 10, toggle := false, status := .Operational } ∧
    Emergency.decode (Emergency.encode
        { node_id := 10, error_code := .Communication, error_register := [],
          vendor_specific := [0, 0, 0, 0, 0] }) =
      DOut.err (.ParseError ("binrw err")) :=
  ⟨rfl, by decide, rfl, by decide, rfl⟩

theorem nmt_roundtrip : ∀ (f : NmtFunction) (t : Nat),
    Nmt.decode (Nmt.encode { function := f, target_node := t }) =
      DOut.ok { function := f, target_node := t } := by
  intro f t; cases f <;> rfl

theorem sync_roundtrip : Sync.decode (Sync.encode {}) = DOut.ok {} := rfl

theorem emergency_roundtrip : ∀ (n : Nat) (code : EmergencyErrorCode) (regs : List EmergencyErrorRegister)
    (vend : List Nat), n < 256 → vend.length = 5 →
    EmergencyErrorCode.decode code.encode = .ok code →
    regs = EmergencyErrorRegister.decode (EmergencyErrorRegister.encode regs) →
    Emergency.decode (Emergency.encode
      { node_id := n, error_code := code, error_register := regs, vendor_specific := vend }) =
      DOut.ok { node_id := n, error_code := code, error_register := regs,
                vendor_specific := vend } := by
  intro n code regs vend hn hv hcode hregs
  unfold Emergency.encode Emergency.decode id_as_raw_std u16ToLe
  rw [if_neg (by simp [List.length_append, hv])]
  simp only [List.cons_append, List.nil_append]
  have h16 : u16le (code.encode % 256) (code.encode / 256 % 256) = code.encode := by
    unfold u16le
    have := emcyEncLt code
    omega
  rw [h16, hcode]
  have hvt : vend.take 5 = vend := by
    rw [← hv]
    exact List.take_length _
  rw [hvt, ← hregs]
  have hnode : (0x80 + n - 0x80) % 256 = n := by omega
  rw [hnode]

theorem pdo_res_roundtrip : ∀ (n i : Nat) (d : List Nat), n < 128 → i < 8 →
    Pdo.decode (Pdo.encode { node_id := n, pdo_index := i, reqres := .Res, data := d }) =
      DOut.ok { node_id := n, pdo_index := i, reqres := .Res, data := d } := by
  intro n i d hn hi
  obtain ⟨h1, h2, h3⟩ := pdoBits n hn i hi
  simp [Pdo.encode, Pdo.decode, id_as_raw_std, h1, h2, h3]

theorem guard_decode_in_range : ∀ (n b : Nat), n < 128 →
    Guard.decode { id := .std (0x700 + n), data := [b] } =
      (match GuardStatus.ofByte (b &&& 0x7F) with
       | some status => DOut.ok { node_id := 0, toggle := b &&& 0x80 != 0, status := status }
       | none => DOut.err (.ParseError ("no parse"))) := by
  intro n b hn
  dsimp only [Guard.decode, id_as_raw_std]
  rw [if_neg (fun hc => hc ⟨by omega, by omega⟩)]

theorem guard_roundtrip_node_lost : ∀ (n : Nat) (t : Bool) (st : GuardStatus), n < 128 →
    Guard.decode (Guard.encode { node_id := n, toggle := t, status := st }) =
      DOut.ok { node_id := 0, toggle := t, status := st } := by
  intro n t st hn
  have h := guard_decode_in_range n (GuardStatus.toByte st ||| (Bool.toNat t <<< 7)) hn
  cases st <;> cases t <;> exact h

/-- C2 (amended): `decode(encode(m)) = m` holds for `Nmt` and `Sync`
unconditionally; for `Emergency` when the error code's canonical encoding
decodes back to it (true for all codes except `Communication`, whose base
0x8100 is missing from the table) and the register list is in canonical bit
order; for `Pdo` only in the `Res` direction (a Req PDO decodes with
direction `Res` and pdo_index off by one); and for `Guard` on all fields
except `node_id`, which decode leaves at 0 instead of deriving it from the
COB-ID. -/
theorem frame_codec_roundtrip_amended :
    (∀ (f : NmtFunction) (t : Nat),
      Nmt.decode (Nmt.encode { function := f, target_node := t }) =
        DOut.ok { function := f, target_node := t }) ∧
    (Sync.decode (Sync.encode {}) = DOut.ok {}) ∧
    (∀ (n : Nat) (code : EmergencyErrorCode) (regs : List EmergencyErrorRegister)
      (vend : List Nat), n < 256 → vend.length = 5 →
      EmergencyErrorCode.decode code.encode = .ok code →
      regs = EmergencyErrorRegister.decode (EmergencyErrorRegister.encode regs) →
      Emergency.decode (Emergency.encode
        { node_id := n, error_code := code, error_register := regs, vendor_specific := vend }) =
        DOut.ok { node_id := n, error_code := code, error_register := regs,
                  vendor_specific := vend }) ∧
    (∀ (n i : Nat) (d : List Nat), n < 128 → i < 8 →
      Pdo.decode (Pdo.encode { node_id := n, pdo_index := i, reqres := .Res, data := d }) =
        DOut.ok { node_id := n, pdo_index := i, reqres := .Res, data := d }) ∧
    (∀ (n : Nat) (t : Bool) (st : GuardStatus), n < 128 →
      Guard.decode (Guard.encode { node_id := n, toggle := t, status := st }) =
        DOut.ok { node_id := 0, toggle := t, status := st }) :=
  ⟨nmt_roundtrip, sync_roundtrip, emergency_roundtrip, pdo_res_roundtrip,
   guard_roundtrip_node_lost⟩

/-- C2 witness: the amended round-trip applied at the spec's own scenario
messages (EMCY AmbientTemperature from node 10, PDO 1 Res, Guard
Operational). -/
theorem frame_codec_roundtrip_amended_witness :
    Emergency.decode (Emergency.encode
      { node_id := 10, error_code := .AmbientTemperature,
        error_register := [.Temperature], vendor_specific := [1, 2, 0, 0, 0] }) =
      DOut.ok { node_id := 10, error_code := .AmbientTemperature,
                error_register := [.Temperature], vendor_specific := [1, 2, 0, 0, 0] } ∧
    Pdo.decode (Pdo.encode { node_id := 10, pdo_index := 1, reqres := .Res, data := [3, 4, 0] }) =
      DOut.ok { node_id := 10, pdo_index := 1, reqres := .Res, data := [3, 4, 0] } ∧
    Guard.decode (Guard.encode { node_id := 10, toggle := false, status := .Operational }) =
      DOut.ok { node_id := 0, toggle := false, status := .Operational } :=
  ⟨frame_codec_roundtrip_amended.2.2.1 10 .AmbientTemperature [.Temperature] [1, 2, 0, 0, 0]
      (by decide) (by decide) (by decide) (by decide),
   frame_codec_roundtrip_amended.2.2.2.1 10 1 [3, 4, 0] (by decide) (by decide),
   frame_codec_roundtrip_amended.2.2.2.2 10 false .Operational (by decide)⟩

theorem payload_decode_total (cid : CanId) (d0 d1 d2 d3 d4 d5 d6 d7 : Nat) :
    SdoCmdInitiatePayload.decode { id := cid, data := [d0, d1, d2, d3, d4, d5, d6, d7] } ≠
      DOut.panic := by
  unfold SdoCmdInitiatePayload.decode
  simp only [List.getElem?_cons_zero]
  by_cases hm : d0 % 2 = 1 <;> by_cases h2 : d0 &&& 2 = 0 <;> by_cases h1 : d0 &&& 1 = 0
  all_goals try (simp [h1, h2, hm, sliceD])
  all_goals rcases e : (d0 &&& 12) >>> 2 with _ | _ | _ | _ | k <;> simp [h1, h2, hm, e, sliceD]


theorem initiateDownloadRx_decode_total (cid : CanId) (d0 d1 d2 d3 d4 d5 d6 d7 : Nat) :
    SdoCmdInitiateDownloadRx.decode { id := cid, data := [d0, d1, d2, d3, d4, d5, d6, d7] } ≠
      DOut.panic := by
  unfold SdoCmdInitiateDownloadRx.decode
  simp only [sliceD, List.getElem?_cons_succ, List.getElem?_cons_zero]
  norm_num
  cases hp : SdoCmdInitiatePayload.decode { id := cid, data := [d0, d1, d2, d3, d4, d5, d6, d7] } with
  | panic => exact absurd hp (payload_decode_total cid d0 d1 d2 d3 d4 d5 d6 d7)
  | err e => simp
  | ok p => simp

theorem initiateUploadTx_decode_total (cid : CanId) (d0 d1 d2 d3 d4 d5 d6 d7 : Nat) :
    SdoCmdInitiateUploadTx.decode { id := cid, data := [d0, d1, d2, d3, d4, d5, d6, d7] } ≠
      DOut.panic := by
  unfold SdoCmdInitiateUploadTx.decode
  simp only [sliceD, List.getElem?_cons_succ, List.getElem?_cons_zero]
  norm_num
  cases hp : SdoCmdInitiatePayload.decode { id := cid, data := [d0, d1, d2, d3, d4, d5, d6, d7] } with
  | panic => exact absurd hp (payload_decode_total cid d0 d1 d2 d3 d4 d5 d6 d7)
  | err e => simp
  | ok p => simp

theorem downloadSegmentRx_decode_total (cid : CanId) (d0 d1 d2 d3 d4 d5 d6 d7 : Nat) :
    SdoCmdDownloadSegmentRx.decode { id := cid, data := [d0, d1, d2, d3, d4, d5, d6, d7] } ≠
      DOut.panic := by
  unfold SdoCmdDownloadSegmentRx.decode
  simp only [List.getElem?_cons_zero, sliceD, List.length_cons, List.length_nil]
  rw [if_pos (by omega)]
  simp

theorem uploadSegmentTx_decode_total (cid : CanId) (d0 d1 d2 d3 d4 d5 d6 d7 : Nat) :
    SdoCmdUploadSegmentTx.decode { id := cid, data := [d0, d1, d2, d3, d4, d5, d6, d7] } ≠
      DOut.panic := by
  unfold SdoCmdUploadSegmentTx.decode
  simp only [List.getElem?_cons_zero, sliceD, List.length_cons, List.length_nil]
  rw [if_pos (by omega)]
  simp

theorem abortTransfer_decode_total (cid : CanId) (d0 d1 d2 d3 d4 d5 d6 d7 : Nat) :
    SdoCmdAbortTransfer.decode { id := cid, data := [d0, d1, d2, d3, d4, d5, d6, d7] } ≠
      DOut.panic := by
  unfold SdoCmdAbortTransfer.decode
  simp only [sliceD, List.getElem?_cons_succ, List.getElem?_cons_zero]
  norm_num
  cases AbortCode.decode (u32le d4 d5 d6 d7) <;> simp


theorem initiateDownloadTx_decode_total (cid : CanId) (d0 d1 d2 d3 d4 d5 d6 d7 : Nat) :
    SdoCmdInitiateDownloadTx.decode { id := cid, data := [d0, d1, d2, d3, d4, d5, d6, d7] } ≠
      DOut.panic := by
  unfold SdoCmdInitiateDownloadTx.decode
  simp [sliceD]

theorem initiateUploadRx_decode_total (cid : CanId) (d0 d1 d2 d3 d4 d5 d6 d7 : Nat) :
    SdoCmdInitiateUploadRx.decode { id := cid, data := [d0, d1, d2, d3, d4, d5, d6, d7] } ≠
      DOut.panic := by
  unfold SdoCmdInitiateUploadRx.decode
  simp [sliceD]

theorem downloadSegmentTx_decode_total (cid : CanId) (d0 d1 d2 d3 d4 d5 d6 d7 : Nat) :
    SdoCmdDownloadSegmentTx.decode { id := cid, data := [d0, d1, d2, d3, d4, d5, d6, d7] } ≠
      DOut.panic := by
  unfold SdoCmdDownloadSegmentTx.decode
  simp

theorem uploadSegmentRx_decode_total (cid : CanId) (d0 d1 d2 d3 d4 d5 d6 d7 : Nat) :
    SdoCmdUploadSegmentRx.decode { id := cid, data := [d0, d1, d2, d3, d4, d5, d6, d7] } ≠
      DOut.panic := by
  unfold SdoCmdUploadSegmentRx.decode
  simp

theorem decodeBody_total_req (n : Nat) (cid : CanId) (d0 d1 d2 d3 d4 d5 d6 d7 : Nat) :
    Sdo.decodeBody n ReqRes.Req { id := cid, data := [d0, d1, d2, d3, d4, d5, d6, d7] } ≠
      DOut.panic := by
  unfold Sdo.decodeBody
  simp only [List.getElem?_cons_zero]
  cases hfb : SdoCmdSpec.from_byte d0 ReqRes.Req with
  | error e => simp
  | ok spec =>
    cases spec with
    | DownloadSegment =>
      cases hv : SdoCmdDownloadSegmentRx.decode { id := cid, data := [d0, d1, d2, d3, d4, d5, d6, d7] } with
      | panic => exact absurd hv (downloadSegmentRx_decode_total cid d0 d1 d2 d3 d4 d5 d6 d7)
      | err e => simp [DOut.map]
      | ok c => simp [DOut.map]
    | InitiateDownload =>
      cases hv : SdoCmdInitiateDownloadRx.decode { id := cid, data := [d0, d1, d2, d3, d4, d5, d6, d7] } with
      | panic => exact absurd hv (initiateDownloadRx_decode_total cid d0 d1 d2 d3 d4 d5 d6 d7)
      | err e => simp [DOut.map]
      | ok c => simp [DOut.map]
    | InitiateUpload =>
      cases hv : SdoCmdInitiateUploadRx.decode { id := cid, data := [d0, d1, d2, d3, d4, d5, d6, d7] } with
      | panic => exact absurd hv (initiateUploadRx_decode_total cid d0 d1 d2 d3 d4 d5 d6 d7)
      | err e => simp [DOut.map]
      | ok c => simp [DOut.map]
    | UploadSegment =>
      cases hv : SdoCmdUploadSegmentRx.decode { id := cid, data := [d0, d1, d2, d3, d4, d5, d6, d7] } with
      | panic => exact absurd hv (uploadSegmentRx_decode_total cid d0 d1 d2 d3 d4 d5 d6 d7)
      | err e => simp [DOut.map]
      | ok c => simp [DOut.map]
    | AbortTransfer =>
      cases hv : SdoCmdAbortTransfer.decode { id := cid, data := [d0, d1, d2, d3, d4, d5, d6, d7] } with
      | panic => exact absurd hv (abortTransfer_decode_total cid d0 d1 d2 d3 d4 d5 d6 d7)
      | err e => simp [DOut.map]
      | ok c => simp [DOut.map]
    | BlockUpload => simp
    | BlockDownload => simp

theorem decodeBody_total_res (n : Nat) (cid : CanId) (d0 d1 d2 d3 d4 d5 d6 d7 : Nat) :
    Sdo.decodeBody n ReqRes.Res { id := cid, data := [d0, d1, d2, d3, d4, d5, d6, d7] } ≠
      DOut.panic := by
  unfold Sdo.decodeBody
  simp only [List.getElem?_cons_zero]
  cases hfb : SdoCmdSpec.from_byte d0 ReqRes.Res with
  | error e => simp
  | ok spec =>
    cases spec with
    | DownloadSegment =>
      cases hv : SdoCmdDownloadSegmentTx.decode { id := cid, data := [d0, d1, d2, d3, d4, d5, d6, d7] } with
      | panic => exact absurd hv (downloadSegmentTx_decode_total cid d0 d1 d2 d3 d4 d5 d6 d7)
      | err e => simp [DOut.map]
      | ok c => simp [DOut.map]
    | InitiateDownload =>
      cases hv : SdoCmdInitiateDownloadTx.decode { id := cid, data := [d0, d1, d2, d3, d4, d5, d6, d7] } with
      | panic => exact absurd hv (initiateDownloadTx_decode_total cid d0 d1 d2 d3 d4 d5 d6 d7)
      | err e => simp [DOut.map]
      | ok c => simp [DOut.map]
    | InitiateUpload =>
      cases hv : SdoCmdInitiateUploadTx.decode { id := cid, data := [d0, d1, d2, d3, d4, d5, d6, d7] } with
      | panic => exact absurd hv (initiateUploadTx_decode_total cid d0 d1 d2 d3 d4 d5 d6 d7)
      | err e => simp [DOut.map]
      | ok c => simp [DOut.map]
    | UploadSegment =>
      cases hv : SdoCmdUploadSegmentTx.decode { id := cid, data := [d0, d1, d2, d3, d4, d5, d6, d7] } with
      | panic => exact absurd hv (uploadSegmentTx_decode_total cid d0 d1 d2 d3 d4 d5 d6 d7)
      | err e => simp [DOut.map]
      | ok c => simp [DOut.map]
    | AbortTransfer =>
      cases hv : SdoCmdAbortTransfer.decode { id := cid, data := [d0, d1, d2, d3, d4, d5, d6, d7] } with
      | panic => exact absurd hv (abortTransfer_decode_total cid d0 d1 d2 d3 d4 d5 d6 d7)
      | err e => simp [DOut.map]
      | ok c => simp [DOut.map]
    | BlockUpload => simp
    | BlockDownload => simp

theorem decodeBody_total (n : Nat) (rr : ReqRes) (cid : CanId) (d0 d1 d2 d3 d4 d5 d6 d7 : Nat) :
    Sdo.decodeBody n rr { id := cid, data := [d0, d1, d2, d3, d4, d5, d6, d7] } ≠ DOut.panic := by
  cases rr with
  | Req => exact decodeBody_total_req n cid d0 d1 d2 d3 d4 d5 d6 d7
  | Res => exact decodeBody_total_res n cid d0 d1 d2 d3 d4 d5 d6 d7

/-- C10: the SDO decoders index the frame payload without length checks: a
frame in the SDO COB-ID ranges with an empty payload panics (out-of-bounds
access, not `ParseError`), as does a segment frame shorter than 1 + the
encoded segment size (here `[2]`, which encodes size 6 and needs 7 data
bytes); with a full 8-byte payload decoding is total — it never panics. -/
theorem sdo_decode_partiality :
    (∀ id, (0x580 ≤ id ∧ id ≤ 0x5FF) ∨ (0x600 ≤ id ∧ id ≤ 0x67F) →
      Sdo.decode { id := CanId.std id, data := [] } = DOut.panic) ∧
    Sdo.decode { id := CanId.std 0x60A, data := [2] } = DOut.panic ∧
    (∀ (id d0 d1 d2 d3 d4 d5 d6 d7 : Nat),
      (0x580 ≤ id ∧ id ≤ 0x5FF) ∨ (0x600 ≤ id ∧ id ≤ 0x67F) →
      Sdo.decode { id := CanId.std id, data := [d0, d1, d2, d3, d4, d5, d6, d7] } ≠
        DOut.panic) := by
  refine ⟨?_, rfl, ?_⟩
  · intro id h
    unfold Sdo.decode id_as_raw_std
    dsimp only
    rw [if_neg (fun hc => h.elim (fun ha => hc.1 ha) (fun hb => hc.2 hb))]
    rfl
  · intro id d0 d1 d2 d3 d4 d5 d6 d7 h
    unfold Sdo.decode id_as_raw_std
    dsimp only
    rw [if_neg (fun hc => h.elim (fun ha => hc.1 ha) (fun hb => hc.2 hb))]
    exact decodeBody_total _ _ _ d0 d1 d2 d3 d4 d5 d6 d7

/-- C10 witness: the partiality theorem applied at COB-ID 0x60A — an empty
payload panics, a full 8-byte InitiateUpload request does not. -/
theorem sdo_decode_partiality_witness :
    Sdo.decode { id := CanId.std 0x60A, data := [] } = DOut.panic ∧
    Sdo.decode { id := CanId.std 0x60A, data := [0x40, 0, 0, 0, 0, 0, 0, 0] } ≠ DOut.panic :=
  ⟨sdo_decode_partiality.1 0x60A (Or.inr (by decide)),
   sdo_decode_partiality.2.2 0x60A 0x40 0 0 0 0 0 0 0 (Or.inr (by decide))⟩

set_option maxRecDepth 2000 in
theorem sdoIdBits : ∀ n, n < 128 →
    (n + 0x580) &&& 0x7F = n ∧ (n + 0x600) &&& 0x7F = n ∧
    (n + 0x580) &&& 0x780 = 0x580 ∧ (n + 0x600) &&& 0x780 = 0x600 := by decide

theorem sdo_decode_req (n : Nat) (hn : n < 128) (d : List Nat) :
    Sdo.decode { id := CanId.std (n + 0x600), data := d } =
      Sdo.decodeBody n ReqRes.Req { id := CanId.std (n + 0x600), data := d } := by
  obtain ⟨h1, h2, h3, h4⟩ := sdoIdBits n hn
  unfold Sdo.decode id_as_raw_std ReqRes.from_u16_sdo
  dsimp only
  rw [if_neg (fun hc => hc.2 ⟨by omega, by omega⟩)]
  rw [h2, h4]
  rw [if_neg (by decide)]

theorem sdo_decode_res (n : Nat) (hn : n < 128) (d : List Nat) :
    Sdo.decode { id := CanId.std (n + 0x580), data := d } =
      Sdo.decodeBody n ReqRes.Res { id := CanId.std (n + 0x580), data := d } := by
  obtain ⟨h1, h2, h3, h4⟩ := sdoIdBits n hn
  unfold Sdo.decode id_as_raw_std ReqRes.from_u16_sdo
  dsimp only
  rw [if_neg (fun hc => hc.1 ⟨by omega, by omega⟩)]
  rw [h1, h3]
  rw [if_pos rfl]

theorem body_initiate_upload_rx (n lo hi sub : Nat) (cid : CanId) :
    Sdo.decodeBody n .Req ⟨cid, [0x40, lo, hi, sub, 0, 0, 0, 0]⟩ =
      DOut.ok { node_id := n,
                command := .InitiateUploadRx { index := u16le lo hi, sub_index := sub },
                reqres := .Req } := by
  unfold Sdo.decodeBody SdoCmdSpec.from_byte SdoCmdInitiateUploadRx.decode
  simp [sliceD, DOut.map]

theorem body_initiate_download_tx (n lo hi sub : Nat) (cid : CanId) :
    Sdo.decodeBody n .Res ⟨cid, [0x60, lo, hi, sub, 0, 0, 0, 0]⟩ =
      DOut.ok { node_id := n,
                command := .InitiateDownloadTx { index := u16le lo hi, sub_index := sub },
                reqres := .Res } := by
  unfold Sdo.decodeBody SdoCmdSpec.from_byte SdoCmdInitiateDownloadTx.decode
  simp [sliceD, DOut.map]

theorem abort_decode_eq (lo hi sub : Nat) (cid : CanId) (code : AbortCode) :
    SdoCmdAbortTransfer.decode ⟨cid, [0x80, lo, hi, sub] ++ u32ToLe code.encode⟩ =
      DOut.ok { index := u16le lo hi, sub_index := sub, abort_code := code } := by
  cases code <;>
    (unfold SdoCmdAbortTransfer.decode AbortCode.encode u32ToLe
     simp [sliceD, u32le, AbortCode.decode])

theorem body_abort (n lo hi sub : Nat) (cid : CanId) (rr : ReqRes) (code : AbortCode) :
    Sdo.decodeBody n rr ⟨cid, [0x80, lo, hi, sub] ++ u32ToLe code.encode⟩ =
      DOut.ok { node_id := n,
                command := .AbortTransfer
                  { index := u16le lo hi, sub_index := sub, abort_code := code },
                reqres := rr } := by
  have ha := abort_decode_eq lo hi sub cid code
  cases rr <;>
    (unfold Sdo.decodeBody SdoCmdSpec.from_byte
     simp only [u32ToLe, List.cons_append, List.nil_append] at ha ⊢
     simp [ha, DOut.map])

theorem body_idr_exp1 (n lo hi sub a : Nat) (cid : CanId) :
    Sdo.decodeBody n .Req ⟨cid, [47, lo, hi, sub, a, 0, 0, 0]⟩ =
      DOut.ok { node_id := n,
                command := .InitiateDownloadRx
                  { index := u16le lo hi, sub_index := sub, payload := .Expedited [a] },
                reqres := .Req } := by
  unfold Sdo.decodeBody SdoCmdSpec.from_byte SdoCmdInitiateDownloadRx.decode
    SdoCmdInitiatePayload.decode
  simp [sliceD, DOut.map, (by decide : ((47:Nat) &&& 1) = 1),
    (by decide : ((47:Nat) &&& 2) = 2), (by decide : ((47:Nat) &&& 12) = 12)]

theorem body_idr_exp2 (n lo hi sub a b : Nat) (cid : CanId) :
    Sdo.decodeBody n .Req ⟨cid, [43, lo, hi, sub, a, b, 0, 0]⟩ =
      DOut.ok { node_id := n,
                command := .InitiateDownloadRx
                  { index := u16le lo hi, sub_index := sub, payload := .Expedited [a, b] },
                reqres := .Req } := by
  unfold Sdo.decodeBody SdoCmdSpec.from_byte SdoCmdInitiateDownloadRx.decode
    SdoCmdInitiatePayload.decode
  simp [sliceD, DOut.map, (by decide : ((43:Nat) &&& 1) = 1),
    (by decide : ((43:Nat) &&& 2) = 2), (by decide : ((43:Nat) &&& 12) = 8)]

theorem body_idr_exp3 (n lo hi sub a b c : Nat) (cid : CanId) :
    Sdo.decodeBody n .Req ⟨cid, [39, lo, hi, sub, a, b, c, 0]⟩ =
      DOut.ok { node_id := n,
                command := .InitiateDownloadRx
                  { index := u16le lo hi, sub_index := sub, payload := .Expedited [a, b, c] },
                reqres := .Req } := by
  unfold Sdo.decodeBody SdoCmdSpec.from_byte SdoCmdInitiateDownloadRx.decode
    SdoCmdInitiatePayload.decode
  simp [sliceD, DOut.map, (by decide : ((39:Nat) &&& 1) = 1),
    (by decide : ((39:Nat) &&& 2) = 2), (by decide : ((39:Nat) &&& 12) = 4)]

theorem body_idr_exp4 (n lo hi sub a b c e : Nat) (cid : CanId) :
    Sdo.decodeBody n .Req ⟨cid, [35, lo, hi, sub, a, b, c, e]⟩ =
      DOut.ok { node_id := n,
                command := .InitiateDownloadRx
                  { index := u16le lo hi, sub_index := sub, payload := .Expedited [a, b, c, e] },
                reqres := .Req } := by
  unfold Sdo.decodeBody SdoCmdSpec.from_byte SdoCmdInitiateDownloadRx.decode
    SdoCmdInitiatePayload.decode
  simp [sliceD, DOut.map, (by decide : ((35:Nat) &&& 1) = 1),
    (by decide : ((35:Nat) &&& 2) = 2), (by decide : ((35:Nat) &&& 12) = 0)]

theorem body_idr_segsome (n lo hi sub s0 s1 s2 s3 : Nat) (cid : CanId) :
    Sdo.decodeBody n .Req ⟨cid, [33, lo, hi, sub, s0, s1, s2, s3]⟩ =
      DOut.ok { node_id := n,
                command := .InitiateDownloadRx
                  { index := u16le lo hi, sub_index := sub, payload := .Segmented (some (u32le s0 s1 s2 s3)) },
                reqres := .Req } := by
  unfold Sdo.decodeBody SdoCmdSpec.from_byte SdoCmdInitiateDownloadRx.decode
    SdoCmdInitiatePayload.decode
  simp [sliceD, DOut.map, (by decide : ((33:Nat) &&& 1) = 1),
    (by decide : ((33:Nat) &&& 2) = 0), (by decide : ((33:Nat) &&& 12) = 0)]

theorem body_idr_segnone (n lo hi sub : Nat) (cid : CanId) :
    Sdo.decodeBody n .Req ⟨cid, [32, lo, hi, sub, 0, 0, 0, 0]⟩ =
      DOut.ok { node_id := n,
                command := .InitiateDownloadRx
                  { index := u16le lo hi, sub_index := sub, payload := .Segmented none },
                reqres := .Req } := by
  unfold Sdo.decodeBody SdoCmdSpec.from_byte SdoCmdInitiateDownloadRx.decode
    SdoCmdInitiatePayload.decode
  simp [sliceD, DOut.map, (by decide : ((32:Nat) &&& 1) = 0),
    (by decide : ((32:Nat) &&& 2) = 0), (by decide : ((32:Nat) &&& 12) = 0)]

theorem body_iut_exp1 (n lo hi sub a : Nat) (cid : CanId) :
    Sdo.decodeBody n .Res ⟨cid, [79, lo, hi, sub, a, 0, 0, 0]⟩ =
      DOut.ok { node_id := n,
                command := .InitiateUploadTx
                  { index := u16le lo hi, sub_index := sub, payload := .Expedited [a] },
                reqres := .Res } := by
  unfold Sdo.decodeBody SdoCmdSpec.from_byte SdoCmdInitiateUploadTx.decode
    SdoCmdInitiatePayload.decode
  simp [sliceD, DOut.map, (by decide : ((79:Nat) &&& 1) = 1),
    (by decide : ((79:Nat) &&& 2) = 2), (by decide : ((79:Nat) &&& 12) = 12)]

theorem body_iut_exp2 (n lo hi sub a b : Nat) (cid : CanId) :
    Sdo.decodeBody n .Res ⟨cid, [75, lo, hi, sub, a, b, 0, 0]⟩ =
      DOut.ok { node_id := n,
                command := .InitiateUploadTx
                  { index := u16le lo hi, sub_index := sub, payload := .Expedited [a, b] },
                reqres := .Res } := by
  unfold Sdo.decodeBody SdoCmdSpec.from_byte SdoCmdInitiateUploadTx.decode
    SdoCmdInitiatePayload.decode
  simp [sliceD, DOut.map, (by decide : ((75:Nat) &&& 1) = 1),
    (by decide : ((75:Nat) &&& 2) = 2), (by decide : ((75:Nat) &&& 12) = 8)]

theorem body_iut_exp3 (n lo hi sub a b c : Nat) (cid : CanId) :
    Sdo.decodeBody n .Res ⟨cid, [71, lo, hi, sub, a, b, c, 0]⟩ =
      DOut.ok { node_id := n,
                command := .InitiateUploadTx
                  { index := u16le lo hi, sub_index := sub, payload := .Expedited [a, b, c] },
                reqres := .Res } := by
  unfold Sdo.decodeBody SdoCmdSpec.from_byte SdoCmdInitiateUploadTx.decode
    SdoCmdInitiatePayload.decode
  simp [sliceD, DOut.map, (by decide : ((71:Nat) &&& 1) = 1),
    (by decide : ((71:Nat) &&& 2) = 2), (by decide : ((71:Nat) &&& 12) = 4)]

theorem body_iut_exp4 (n lo hi sub a b c e : Nat) (cid : CanId) :
    Sdo.decodeBody n .Res ⟨cid, [67, lo, hi, sub, a, b, c, e]⟩ =
      DOut.ok { node_id := n,
                command := .InitiateUploadTx
                  { index := u16le lo hi, sub_index := sub, payload := .Expedited [a, b, c, e] },
                reqres := .Res } := by
  unfold Sdo.decodeBody SdoCmdSpec.from_byte SdoCmdInitiateUploadTx.decode
    SdoCmdInitiatePayload.decode
  simp [sliceD, DOut.map, (by decide : ((67:Nat) &&& 1) = 1),
    (by decide : ((67:Nat) &&& 2) = 2), (by decide : ((67:Nat) &&& 12) = 0)]

theorem body_iut_segsome (n lo hi sub s0 s1 s2 s3 : Nat) (cid : CanId) :
    Sdo.decodeBody n .Res ⟨cid, [65, lo, hi, sub, s0, s1, s2, s3]⟩ =
      DOut.ok { node_id := n,
                command := .InitiateUploadTx
                  { index := u16le lo hi, sub_index := sub, payload := .Segmented (some (u32le s0 s1 s2 s3)) },
                reqres := .Res } := by
  unfold Sdo.decodeBody SdoCmdSpec.from_byte SdoCmdInitiateUploadTx.decode
    SdoCmdInitiatePayload.decode
  simp [sliceD, DOut.map, (by decide : ((65:Nat) &&& 1) = 1),
    (by decide : ((65:Nat) &&& 2) = 0), (by decide : ((65:Nat) &&& 12) = 0)]

theorem body_iut_segnone (n lo hi sub : Nat) (cid : CanId) :
    Sdo.decodeBody n .Res ⟨cid, [64, lo, hi, sub, 0, 0, 0, 0]⟩ =
      DOut.ok { node_id := n,
                command := .InitiateUploadTx
                  { index := u16le lo hi, sub_index := sub, payload := .Segmented none },
                reqres := .Res } := by
  unfold Sdo.decodeBody SdoCmdSpec.from_byte SdoCmdInitiateUploadTx.decode
    SdoCmdInitiatePayload.decode
  simp [sliceD, DOut.map, (by decide : ((64:Nat) &&& 1) = 0),
    (by decide : ((64:Nat) &&& 2) = 0), (by decide : ((64:Nat) &&& 12) = 0)]

theorem body_download_segment_rx (n : Nat) (cid : CanId) (t l : Bool) (d : List Nat)
    (h : d.length ≤ 7) :
    Sdo.decodeBody n .Req ⟨cid, overwrite [(t.toNat <<< 4) ||| ((7 - d.length) <<< 1) ||| l.toNat,
        0, 0, 0, 0, 0, 0, 0] 1 d⟩ =
      DOut.ok { node_id := n,
                command := .DownloadSegmentRx { toggle := t, data := d, last := l },
                reqres := .Req } := by
  rcases d with _ | ⟨a, _ | ⟨b, _ | ⟨c, _ | ⟨e, _ | ⟨f, _ | ⟨g, _ | ⟨i, _ | ⟨j, tl⟩⟩⟩⟩⟩⟩⟩⟩
  · cases t <;> cases l
    · unfold Sdo.decodeBody SdoCmdSpec.from_byte SdoCmdDownloadSegmentRx.decode overwrite
      simp [sliceD, DOut.map, (by decide : (7:Nat) &&& 7 = 7),
        (by decide : ((14:Nat) &&& 16) = 0), (by decide : ((14:Nat) &&& 1) = 0)]
    · unfold Sdo.decodeBody SdoCmdSpec.from_byte SdoCmdDownloadSegmentRx.decode overwrite
      simp [sliceD, DOut.map, (by decide : (7:Nat) &&& 7 = 7),
        (by decide : ((15:Nat) &&& 16) = 0), (by decide : ((15:Nat) &&& 1) = 1)]
    · unfold Sdo.decodeBody SdoCmdSpec.from_byte SdoCmdDownloadSegmentRx.decode overwrite
      simp [sliceD, DOut.map, (by decide : (7:Nat) &&& 15 = 7),
        (by decide : ((30:Nat) &&& 16) = 16), (by decide : ((30:Nat) &&& 1) = 0)]
    · unfold Sdo.decodeBody SdoCmdSpec.from_byte SdoCmdDownloadSegmentRx.decode overwrite
      simp [sliceD, DOut.map, (by decide : (7:Nat) &&& 15 = 7),
        (by decide : ((31:Nat) &&& 16) = 16), (by decide : ((31:Nat) &&& 1) = 1)]
  · cases t <;> cases l
    · unfold Sdo.decodeBody SdoCmdSpec.from_byte SdoCmdDownloadSegmentRx.decode overwrite
      simp [sliceD, DOut.map, (by decide : (7:Nat) &&& 6 = 6),
        (by decide : ((12:Nat) &&& 16) = 0), (by decide : ((12:Nat) &&& 1) = 0)]
    · unfold Sdo.decodeBody SdoCmdSpec.from_byte SdoCmdDownloadSegmentRx.decode overwrite
      simp [sliceD, DOut.map, (by decide : (7:Nat) &&& 6 = 6),
        (by decide : ((13:Nat) &&& 16) = 0), (by decide : ((13:Nat) &&& 1) = 1)]
    · unfold Sdo.decodeBody SdoCmdSpec.from_byte SdoCmdDownloadSegmentRx.decode overwrite
      simp [sliceD, DOut.map, (by decide : (7:Nat) &&& 14 = 6),
        (by decide : ((28:Nat) &&& 16) = 16), (by decide : ((28:Nat) &&& 1) = 0)]
    · unfold Sdo.decodeBody SdoCmdSpec.from_byte SdoCmdDownloadSegmentRx.decode overwrite
      simp [sliceD, DOut.map, (by decide : (7:Nat) &&& 14 = 6),
        (by decide : ((29:Nat) &&& 16) = 16), (by decide : ((29:Nat) &&& 1) = 1)]
  · cases t <;> cases l
    · unfold Sdo.decodeBody SdoCmdSpec.from_byte SdoCmdDownloadSegmentRx.decode overwrite
      simp [sliceD, DOut.map, (by decide : (7:Nat) &&& 5 = 5),
        (by decide : ((10:Nat) &&& 16) = 0), (by decide : ((10:Nat) &&& 1) = 0)]
    · unfold Sdo.decodeBody SdoCmdSpec.from_byte SdoCmdDownloadSegmentRx.decode overwrite
      simp [sliceD, DOut.map, (by decide : (7:Nat) &&& 5 = 5),
        (by decide : ((11:Nat) &&& 16) = 0), (by decide : ((11:Nat) &&& 1) = 1)]
    · unfold Sdo.decodeBody SdoCmdSpec.from_byte SdoCmdDownloadSegmentRx.decode overwrite
      simp [sliceD, DOut.map, (by decide : (7:Nat) &&& 13 = 5),
        (by decide : ((26:Nat) &&& 16) = 16), (by decide : ((26:Nat) &&& 1) = 0)]
    · unfold Sdo.decodeBody SdoCmdSpec.from_byte SdoCmdDownloadSegmentRx.decode overwrite
      simp [sliceD, DOut.map, (by decide : (7:Nat) &&& 13 = 5),
        (by decide : ((27:Nat) &&& 16) = 16), (by decide : ((27:Nat) &&& 1) = 1)]
  · cases t <;> cases l
    · unfold Sdo.decodeBody SdoCmdSpec.from_byte SdoCmdDownloadSegmentRx.decode overwrite
      simp [sliceD, DOut.map, (by decide : (7:Nat) &&& 4 = 4),
        (by decide : ((8:Nat) &&& 16) = 0), (by decide : ((8:Nat) &&& 1) = 0)]
    · unfold Sdo.decodeBody SdoCmdSpec.from_byte SdoCmdDownloadSegmentRx.decode overwrite
      simp [sliceD, DOut.map, (by decide : (7:Nat) &&& 4 = 4),
        (by decide : ((9:Nat) &&& 16) = 0), (by decide : ((9:Nat) &&& 1) = 1)]
    · unfold Sdo.decodeBody SdoCmdSpec.from_byte SdoCmdDownloadSegmentRx.decode overwrite
      simp [sliceD, DOut.map, (by decide : (7:Nat) &&& 12 = 4),
        (by decide : ((24:Nat) &&& 16) = 16), (by decide : ((24:Nat) &&& 1) = 0)]
    · unfold Sdo.decodeBody SdoCmdSpec.from_byte SdoCmdDownloadSegmentRx.decode overwrite
      simp [sliceD, DOut.map, (by decide : (7:Nat) &&& 12 = 4),
        (by decide : ((25:Nat) &&& 16) = 16), (by decide : ((25:Nat) &&& 1) = 1)]
  · cases t <;> cases l
    · unfold Sdo.decodeBody SdoCmdSpec.from_byte SdoCmdDownloadSegmentRx.decode overwrite
      simp [sliceD, DOut.map, (by decide : (7:Nat) &&& 3 = 3),
        (by decide : ((6:Nat) &&& 16) = 0), (by decide : ((6:Nat) &&& 1) = 0)]
    · unfold Sdo.decodeBody SdoCmdSpec.from_byte SdoCmdDownloadSegmentRx.decode overwrite
      simp [sliceD, DOut.map, (by decide : (7:Nat) &&& 3 = 3),
        (by decide : ((7:Nat) &&& 16) = 0), (by decide : ((7:Nat) &&& 1) = 1)]
    · unfold Sdo.decodeBody SdoCmdSpec.from_byte SdoCmdDownloadSegmentRx.decode overwrite
      simp [sliceD, DOut.map, (by decide : (7:Nat) &&& 11 = 3),
        (by decide : ((22:Nat) &&& 16) = 16), (by decide : ((22:Nat) &&& 1) = 0)]
    · unfold Sdo.decodeBody SdoCmdSpec.from_byte SdoCmdDownloadSegmentRx.decode overwrite
      simp [sliceD, DOut.map, (by decide : (7:Nat) &&& 11 = 3),
        (by decide : ((23:Nat) &&& 16) = 16), (by decide : ((23:Nat) &&& 1) = 1)]
  · cases t <;> cases l
    · unfold Sdo.decodeBody SdoCmdSpec.from_byte SdoCmdDownloadSegmentRx.decode overwrite
      simp [sliceD, DOut.map, (by decide : (7:Nat) &&& 2 = 2),
        (by decide : ((4:Nat) &&& 16) = 0), (by decide : ((4:Nat) &&& 1) = 0)]
    · unfold Sdo.decodeBody SdoCmdSpec.from_byte SdoCmdDownloadSegmentRx.decode overwrite
      simp [sliceD, DOut.map, (by decide : (7:Nat) &&& 2 = 2),
        (by decide : ((5:Nat) &&& 16) = 0), (by decide : ((5:Nat) &&& 1) = 1)]
    · unfold Sdo.decodeBody SdoCmdSpec.from_byte SdoCmdDownloadSegmentRx.decode overwrite
      simp [sliceD, DOut.map, (by decide : (7:Nat) &&& 10 = 2),
        (by decide : ((20:Nat) &&& 16) = 16), (by decide : ((20:Nat) &&& 1) = 0)]
    · unfold Sdo.decodeBody SdoCmdSpec.from_byte SdoCmdDownloadSegmentRx.decode overwrite
      simp [sliceD, DOut.map, (by decide : (7:Nat) &&& 10 = 2),
        (by decide : ((21:Nat) &&& 16) = 16), (by decide : ((21:Nat) &&& 1) = 1)]
  · cases t <;> cases l
    · unfold Sdo.decodeBody SdoCmdSpec.from_byte SdoCmdDownloadSegmentRx.decode overwrite
      simp [sliceD, DOut.map, (by decide : (7:Nat) &&& 1 = 1),
        (by decide : ((2:Nat) &&& 16) = 0), (by decide : ((2:Nat) &&& 1) = 0)]
    · unfold Sdo.decodeBody SdoCmdSpec.from_byte SdoCmdDownloadSegmentRx.decode overwrite
      simp [sliceD, DOut.map, (by decide : (7:Nat) &&& 1 = 1),
        (by decide : ((3:Nat) &&& 16) = 0), (by decide : ((3:Nat) &&& 1) = 1)]
    · unfold Sdo.decodeBody SdoCmdSpec.from_byte SdoCmdDownloadSegmentRx.decode overwrite
      simp [sliceD, DOut.map, (by decide : (7:Nat) &&& 9 = 1),
        (by decide : ((18:Nat) &&& 16) = 16), (by decide : ((18:Nat) &&& 1) = 0)]
    · unfold Sdo.decodeBody SdoCmdSpec.from_byte SdoCmdDownloadSegmentRx.decode overwrite
      simp [sliceD, DOut.map, (by decide : (7:Nat) &&& 9 = 1),
        (by decide : ((19:Nat) &&& 16) = 16), (by decide : ((19:Nat) &&& 1) = 1)]
  · cases t <;> cases l
    · unfold Sdo.decodeBody SdoCmdSpec.from_byte SdoCmdDownloadSegmentRx.decode overwrite
      simp [sliceD, DOut.map, (by decide : (7:Nat) &&& 0 = 0),
        (by decide : ((0:Nat) &&& 16) = 0), (by decide : ((0:Nat) &&& 1) = 0)]
    · unfold Sdo.decodeBody SdoCmdSpec.from_byte SdoCmdDownloadSegmentRx.decode overwrite
      simp [sliceD, DOut.map, (by decide : (7:Nat) &&& 0 = 0),
        (by decide : ((1:Nat) &&& 16) = 0), (by decide : ((1:Nat) &&& 1) = 1)]
    · unfold Sdo.decodeBody SdoCmdSpec.from_byte SdoCmdDownloadSegmentRx.decode overwrite
      simp [sliceD, DOut.map, (by decide : (7:Nat) &&& 8 = 0),
        (by decide : ((16:Nat) &&& 16) = 16), (by decide : ((16:Nat) &&& 1) = 0)]
    · unfold Sdo.decodeBody SdoCmdSpec.from_byte SdoCmdDownloadSegmentRx.decode overwrite
      simp [sliceD, DOut.map, (by decide : (7:Nat) &&& 8 = 0),
        (by decide : ((17:Nat) &&& 16) = 16), (by decide : ((17:Nat) &&& 1) = 1)]
  · simp only [List.length_cons] at h; omega

theorem body_upload_segment_tx (n : Nat) (cid : CanId) (t l : Bool) (d : List Nat)
    (h : d.length ≤ 7) :
    Sdo.decodeBody n .Res ⟨cid, overwrite [(t.toNat <<< 4) ||| ((7 - d.length) <<< 1) ||| l.toNat,
        0, 0, 0, 0, 0, 0, 0] 1 d⟩ =
      DOut.ok { node_id := n,
                command := .UploadSegmentTx { toggle := t, data := d, last := l },
                reqres := .Res } := by
  rcases d with _ | ⟨a, _ | ⟨b, _ | ⟨c, _ | ⟨e, _ | ⟨f, _ | ⟨g, _ | ⟨i, _ | ⟨j, tl⟩⟩⟩⟩⟩⟩⟩⟩
  · cases t <;> cases l
    · unfold Sdo.decodeBody SdoCmdSpec.from_byte SdoCmdUploadSegmentTx.decode overwrite
      simp [sliceD, DOut.map, (by decide : (7:Nat) &&& 7 = 7),
        (by decide : ((14:Nat) &&& 16) = 0), (by decide : ((14:Nat) &&& 1) = 0)]
    · unfold Sdo.decodeBody SdoCmdSpec.from_byte SdoCmdUploadSegmentTx.decode overwrite
      simp [sliceD, DOut.map, (by decide : (7:Nat) &&& 7 = 7),
        (by decide : ((15:Nat) &&& 16) = 0), (by decide : ((15:Nat) &&& 1) = 1)]
    · unfold Sdo.decodeBody SdoCmdSpec.from_byte SdoCmdUploadSegmentTx.decode overwrite
      simp [sliceD, DOut.map, (by decide : (7:Nat) &&& 15 = 7),
        (by decide : ((30:Nat) &&& 16) = 16), (by decide : ((30:Nat) &&& 1) = 0)]
    · unfold Sdo.decodeBody SdoCmdSpec.from_byte SdoCmdUploadSegmentTx.decode overwrite
      simp [sliceD, DOut.map, (by decide : (7:Nat) &&& 15 = 7),
        (by decide : ((31:Nat) &&& 16) = 16), (by decide : ((31:Nat) &&& 1) = 1)]
  · cases t <;> cases l
    · unfold Sdo.decodeBody SdoCmdSpec.from_byte SdoCmdUploadSegmentTx.decode overwrite
      simp [sliceD, DOut.map, (by decide : (7:Nat) &&& 6 = 6),
        (by decide : ((12:Nat) &&& 16) = 0), (by decide : ((12:Nat) &&& 1) = 0)]
    · unfold Sdo.decodeBody SdoCmdSpec.from_byte SdoCmdUploadSegmentTx.decode overwrite
      simp [sliceD, DOut.map, (by decide : (7:Nat) &&& 6 = 6),
        (by decide : ((13:Nat) &&& 16) = 0), (by decide : ((13:Nat) &&& 1) = 1)]
    · unfold Sdo.decodeBody SdoCmdSpec.from_byte SdoCmdUploadSegmentTx.decode overwrite
      simp [sliceD, DOut.map, (by decide : (7:Nat) &&& 14 = 6),
        (by decide : ((28:Nat) &&& 16) = 16), (by decide : ((28:Nat) &&& 1) = 0)]
    · unfold Sdo.decodeBody SdoCmdSpec.from_byte SdoCmdUploadSegmentTx.decode overwrite
      simp [sliceD, DOut.map, (by decide : (7:Nat) &&& 14 = 6),
        (by decide : ((29:Nat) &&& 16) = 16), (by decide : ((29:Nat) &&& 1) = 1)]
  · cases t <;> cases l
    · unfold Sdo.decodeBody SdoCmdSpec.from_byte SdoCmdUploadSegmentTx.decode overwrite
      simp [sliceD, DOut.map, (by decide : (7:Nat) &&& 5 = 5),
        (by decide : ((10:Nat) &&& 16) = 0), (by decide : ((10:Nat) &&& 1) = 0)]
    · unfold Sdo.decodeBody SdoCmdSpec.from_byte SdoCmdUploadSegmentTx.decode overwrite
      simp [sliceD, DOut.map, (by decide : (7:Nat) &&& 5 = 5),
        (by decide : ((11:Nat) &&& 16) = 0), (by decide : ((11:Nat) &&& 1) = 1)]
    · unfold Sdo.decodeBody SdoCmdSpec.from_byte SdoCmdUploadSegmentTx.decode overwrite
      simp [sliceD, DOut.map, (by decide : (7:Nat) &&& 13 = 5),
        (by decide : ((26:Nat) &&& 16) = 16), (by decide : ((26:Nat) &&& 1) = 0)]
    · unfold Sdo.decodeBody SdoCmdSpec.from_byte SdoCmdUploadSegmentTx.decode overwrite
      simp [sliceD, DOut.map, (by decide : (7:Nat) &&& 13 = 5),
        (by decide : ((27:Nat) &&& 16) = 16), (by decide : ((27:Nat) &&& 1) = 1)]
  · cases t <;> cases l
    · unfold Sdo.decodeBody SdoCmdSpec.from_byte SdoCmdUploadSegmentTx.decode overwrite
      simp [sliceD, DOut.map, (by decide : (7:Nat) &&& 4 = 4),
        (by decide : ((8:Nat) &&& 16) = 0), (by decide : ((8:Nat) &&& 1) = 0)]
    · unfold Sdo.decodeBody SdoCmdSpec.from_byte SdoCmdUploadSegmentTx.decode overwrite
      simp [sliceD, DOut.map, (by decide : (7:Nat) &&& 4 = 4),
        (by decide : ((9:Nat) &&& 16) = 0), (by decide : ((9:Nat) &&& 1) = 1)]
    · unfold Sdo.decodeBody SdoCmdSpec.from_byte SdoCmdUploadSegmentTx.decode overwrite
      simp [sliceD, DOut.map, (by decide : (7:Nat) &&& 12 = 4),
        (by decide : ((24:Nat) &&& 16) = 16), (by decide : ((24:Nat) &&& 1) = 0)]
    · unfold Sdo.decodeBody SdoCmdSpec.from_byte SdoCmdUploadSegmentTx.decode overwrite
      simp [sliceD, DOut.map, (by decide : (7:Nat) &&& 12 = 4),
        (by decide : ((25:Nat) &&& 16) = 16), (by decide : ((25:Nat) &&& 1) = 1)]
  · cases t <;> cases l
    · unfold Sdo.decodeBody SdoCmdSpec.from_byte SdoCmdUploadSegmentTx.decode overwrite
      simp [sliceD, DOut.map, (by decide : (7:Nat) &&& 3 = 3),
        (by decide : ((6:Nat) &&& 16) = 0), (by decide : ((6:Nat) &&& 1) = 0)]
    · unfold Sdo.decodeBody SdoCmdSpec.from_byte SdoCmdUploadSegmentTx.decode overwrite
      simp [sliceD, DOut.map, (by decide : (7:Nat) &&& 3 = 3),
        (by decide : ((7:Nat) &&& 16) = 0), (by decide : ((7:Nat) &&& 1) = 1)]
    · unfold Sdo.decodeBody SdoCmdSpec.from_byte SdoCmdUploadSegmentTx.decode overwrite
      simp [sliceD, DOut.map, (by decide : (7:Nat) &&& 11 = 3),
        (by decide : ((22:Nat) &&& 16) = 16), (by decide : ((22:Nat) &&& 1) = 0)]
    · unfold Sdo.decodeBody SdoCmdSpec.from_byte SdoCmdUploadSegmentTx.decode overwrite
      simp [sliceD, DOut.map, (by decide : (7:Nat) &&& 11 = 3),
        (by decide : ((23:Nat) &&& 16) = 16), (by decide : ((23:Nat) &&& 1) = 1)]
  · cases t <;> cases l
    · unfold Sdo.decodeBody SdoCmdSpec.from_byte SdoCmdUploadSegmentTx.decode overwrite
      simp [sliceD, DOut.map, (by decide : (7:Nat) &&& 2 = 2),
        (by decide : ((4:Nat) &&& 16) = 0), (by decide : ((4:Nat) &&& 1) = 0)]
    · unfold Sdo.decodeBody SdoCmdSpec.from_byte SdoCmdUploadSegmentTx.decode overwrite
      simp [sliceD, DOut.map, (by decide : (7:Nat) &&& 2 = 2),
        (by decide : ((5:Nat) &&& 16) = 0), (by decide : ((5:Nat) &&& 1) = 1)]
    · unfold Sdo.decodeBody SdoCmdSpec.from_byte SdoCmdUploadSegmentTx.decode overwrite
      simp [sliceD, DOut.map, (by decide : (7:Nat) &&& 10 = 2),
        (by decide : ((20:Nat) &&& 16) = 16), (by decide : ((20:Nat) &&& 1) = 0)]
    · unfold Sdo.decodeBody SdoCmdSpec.from_byte SdoCmdUploadSegmentTx.decode overwrite
      simp [sliceD, DOut.map, (by decide : (7:Nat) &&& 10 = 2),
        (by decide : ((21:Nat) &&& 16) = 16), (by decide : ((21:Nat) &&& 1) = 1)]
  · cases t <;> cases l
    · unfold Sdo.decodeBody SdoCmdSpec.from_byte SdoCmdUploadSegmentTx.decode overwrite
      simp [sliceD, DOut.map, (by decide : (7:Nat) &&& 1 = 1),
        (by decide : ((2:Nat) &&& 16) = 0), (by decide : ((2:Nat) &&& 1) = 0)]
    · unfold Sdo.decodeBody SdoCmdSpec.from_byte SdoCmdUploadSegmentTx.decode overwrite
      simp [sliceD, DOut.map, (by decide : (7:Nat) &&& 1 = 1),
        (by decide : ((3:Nat) &&& 16) = 0), (by decide : ((3:Nat) &&& 1) = 1)]
    · unfold Sdo.decodeBody SdoCmdSpec.from_byte SdoCmdUploadSegmentTx.decode overwrite
      simp [sliceD, DOut.map, (by decide : (7:Nat) &&& 9 = 1),
        (by decide : ((18:Nat) &&& 16) = 16), (by decide : ((18:Nat) &&& 1) = 0)]
    · unfold Sdo.decodeBody SdoCmdSpec.from_byte SdoCmdUploadSegmentTx.decode overwrite
      simp [sliceD, DOut.map, (by decide : (7:Nat) &&& 9 = 1),
        (by decide : ((19:Nat) &&& 16) = 16), (by decide : ((19:Nat) &&& 1) = 1)]
  · cases t <;> cases l
    · unfold Sdo.decodeBody SdoCmdSpec.from_byte SdoCmdUploadSegmentTx.decode overwrite
      simp [sliceD, DOut.map, (by decide : (7:Nat) &&& 0 = 0),
        (by decide : ((0:Nat) &&& 16) = 0), (by decide : ((0:Nat) &&& 1) = 0)]
    · unfold Sdo.decodeBody SdoCmdSpec.from_byte SdoCmdUploadSegmentTx.decode overwrite
      simp [sliceD, DOut.map, (by decide : (7:Nat) &&& 0 = 0),
        (by decide : ((1:Nat) &&& 16) = 0), (by decide : ((1:Nat) &&& 1) = 1)]
    · unfold Sdo.decodeBody SdoCmdSpec.from_byte SdoCmdUploadSegmentTx.decode overwrite
      simp [sliceD, DOut.map, (by decide : (7:Nat) &&& 8 = 0),
        (by decide : ((16:Nat) &&& 16) = 16), (by decide : ((16:Nat) &&& 1) = 0)]
    · unfold Sdo.decodeBody SdoCmdSpec.from_byte SdoCmdUploadSegmentTx.decode overwrite
      simp [sliceD, DOut.map, (by decide : (7:Nat) &&& 8 = 0),
        (by decide : ((17:Nat) &&& 16) = 16), (by decide : ((17:Nat) &&& 1) = 1)]
  · simp only [List.length_cons] at h; omega

theorem body_download_segment_tx (n : Nat) (cid : CanId) (t : Bool) :
    Sdo.decodeBody n .Res ⟨cid, [(0b001 <<< 5) ||| (t.toNat <<< 4), 0, 0, 0, 0, 0, 0, 0]⟩ =
      DOut.ok { node_id := n, command := .DownloadSegmentTx { toggle := t }, reqres := .Res } := by
  cases t
  · unfold Sdo.decodeBody SdoCmdSpec.from_byte SdoCmdDownloadSegmentTx.decode
    simp [DOut.map, (by decide : ((32:Nat) &&& 16) = 0)]
  · unfold Sdo.decodeBody SdoCmdSpec.from_byte SdoCmdDownloadSegmentTx.decode
    simp [DOut.map, (by decide : ((48:Nat) &&& 16) = 16)]

theorem body_upload_segment_rx (n : Nat) (cid : CanId) (t : Bool) :
    Sdo.decodeBody n .Req ⟨cid, [(0b011 <<< 5) ||| (t.toNat <<< 4), 0, 0, 0, 0, 0, 0, 0]⟩ =
      DOut.ok { node_id := n, command := .UploadSegmentRx { toggle := t }, reqres := .Req } := by
  cases t
  · unfold Sdo.decodeBody SdoCmdSpec.from_byte SdoCmdUploadSegmentRx.decode
    simp [DOut.map, (by decide : ((96:Nat) &&& 16) = 0)]
  · unfold Sdo.decodeBody SdoCmdSpec.from_byte SdoCmdUploadSegmentRx.decode
    simp [DOut.map, (by decide : ((112:Nat) &&& 16) = 16)]

/-- C1: for every non-block SDO command with matching direction (Rx
variants as requests, Tx variants as responses, AbortTransfer either way),
every node id in 0..=127, and fields within their Rust types (u16 index,
u32 segmented size, 1..=4 expedited bytes, at most 7 segment bytes),
encoding succeeds and decoding the encoded frame — with node id and
direction recovered from the COB-ID — returns the original value. -/
theorem sdo_codec_roundtrip (s : Sdo) (hn : s.node_id < 128)
    (hd : dirMatch s.command s.reqres = true) (hw : SdoCmdWF s.command = true) :
    ∃ frame, Sdo.encode s = some frame ∧ Sdo.decode frame = DOut.ok s := by
  obtain ⟨n, cmd, rr⟩ := s
  dsimp only at hn hd hw ⊢
  cases cmd with
  | DownloadSegmentTx c =>
    cases rr with
    | Req => simp [dirMatch] at hd
    | Res =>
      obtain ⟨t⟩ := c
      refine ⟨⟨CanId.std (n + 0x580),
        [(0b001 <<< 5) ||| (t.toNat <<< 4), 0, 0, 0, 0, 0, 0, 0]⟩, ?_, ?_⟩
      · unfold Sdo.encode SdoCmdDownloadSegmentTx.encode ReqRes.to_u16_sdo
        simp
      · rw [sdo_decode_res n hn]
        exact body_download_segment_tx n (CanId.std (n + 0x580)) t
  | InitiateDownloadTx c =>
    cases rr with
    | Req => simp [dirMatch] at hd
    | Res =>
      obtain ⟨idx, sub⟩ := c
      simp only [SdoCmdWF, decide_eq_true_eq] at hw
      have h16 : u16le (idx % 256) (idx / 256 % 256) = idx := by
        unfold u16le
        omega
      refine ⟨⟨CanId.std (n + 0x580), [0x60, idx % 256, idx / 256 % 256, sub, 0, 0, 0, 0]⟩, ?_, ?_⟩
      · unfold Sdo.encode SdoCmdInitiateDownloadTx.encode ReqRes.to_u16_sdo
        simp
      · rw [sdo_decode_res n hn, body_initiate_download_tx, h16]
  | InitiateUploadTx c =>
    cases rr with
    | Req => simp [dirMatch] at hd
    | Res =>
      obtain ⟨idx, sub, pay⟩ := c
      simp only [SdoCmdWF, Bool.and_eq_true, decide_eq_true_eq] at hw
      obtain ⟨hidx, hpay⟩ := hw
      have h16 : u16le (idx % 256) (idx / 256 % 256) = idx := by
        unfold u16le
        omega
      cases pay with
      | Expedited d =>
        simp only [payloadWF, Bool.and_eq_true, decide_eq_true_eq] at hpay
        obtain ⟨hp1, hp2⟩ := hpay
        rcases d with _ | ⟨a, _ | ⟨b, _ | ⟨c1, _ | ⟨e, _ | ⟨f, tl⟩⟩⟩⟩⟩
        · simp at hp1
        · refine ⟨⟨CanId.std (n + 0x580), [79, idx % 256, idx / 256 % 256, sub, a, 0, 0, 0]⟩, ?_, ?_⟩
          · unfold Sdo.encode SdoCmdInitiateUploadTx.encode SdoCmdInitiatePayload.encode ReqRes.to_u16_sdo
            simp [overwrite]
          · rw [sdo_decode_res n hn, body_iut_exp1, h16]
        · refine ⟨⟨CanId.std (n + 0x580), [75, idx % 256, idx / 256 % 256, sub, a, b, 0, 0]⟩, ?_, ?_⟩
          · unfold Sdo.encode SdoCmdInitiateUploadTx.encode SdoCmdInitiatePayload.encode ReqRes.to_u16_sdo
            simp [overwrite]
          · rw [sdo_decode_res n hn, body_iut_exp2, h16]
        · refine ⟨⟨CanId.std (n + 0x580), [71, idx % 256, idx / 256 % 256, sub, a, b, c1, 0]⟩, ?_, ?_⟩
          · unfold Sdo.encode SdoCmdInitiateUploadTx.encode SdoCmdInitiatePayload.encode ReqRes.to_u16_sdo
            simp [overwrite]
          · rw [sdo_decode_res n hn, body_iut_exp3, h16]
        · refine ⟨⟨CanId.std (n + 0x580), [67, idx % 256, idx / 256 % 256, sub, a, b, c1, e]⟩, ?_, ?_⟩
          · unfold Sdo.encode SdoCmdInitiateUploadTx.encode SdoCmdInitiatePayload.encode ReqRes.to_u16_sdo
            simp [overwrite]
          · rw [sdo_decode_res n hn, body_iut_exp4, h16]
        · simp only [List.length_cons] at hp2
          omega
      | Segmented o =>
        cases o with
        | none =>
          refine ⟨⟨CanId.std (n + 0x580), [64, idx % 256, idx / 256 % 256, sub, 0, 0, 0, 0]⟩, ?_, ?_⟩
          · unfold Sdo.encode SdoCmdInitiateUploadTx.encode SdoCmdInitiatePayload.encode ReqRes.to_u16_sdo
            simp [overwrite]
          · rw [sdo_decode_res n hn, body_iut_segnone, h16]
        | some size =>
          simp only [payloadWF, decide_eq_true_eq] at hpay
          have h32 : u32le (size % 256) (size / 256 % 256) (size / 65536 % 256)
              (size / 16777216 % 256) = size := by
            unfold u32le
            omega
          refine ⟨⟨CanId.std (n + 0x580), [65, idx % 256, idx / 256 % 256, sub, size % 256,
            size / 256 % 256, size / 65536 % 256, size / 16777216 % 256]⟩, ?_, ?_⟩
          · unfold Sdo.encode SdoCmdInitiateUploadTx.encode SdoCmdInitiatePayload.encode ReqRes.to_u16_sdo
            simp [overwrite, u32ToLe]
          · rw [sdo_decode_res n hn, body_iut_segsome, h16, h32]
  | UploadSegmentTx c =>
    cases rr with
    | Req => simp [dirMatch] at hd
    | Res =>
      obtain ⟨t, dd, l⟩ := c
      simp only [SdoCmdWF, decide_eq_true_eq] at hw
      refine ⟨⟨CanId.std (n + 0x580),
        overwrite [(t.toNat <<< 4) ||| ((7 - dd.length) <<< 1) ||| l.toNat,
          0, 0, 0, 0, 0, 0, 0] 1 dd⟩, ?_, ?_⟩
      · unfold Sdo.encode SdoCmdUploadSegmentTx.encode ReqRes.to_u16_sdo
        simp [hw]
      · rw [sdo_decode_res n hn]
        exact body_upload_segment_tx n (CanId.std (n + 0x580)) t l dd hw
  | BlockUploadTx =>
    cases rr <;> simp [dirMatch] at hd
  | BlockDownloadTx =>
    cases rr <;> simp [dirMatch] at hd
  | BlockUploadRx =>
    cases rr <;> simp [dirMatch] at hd
  | BlockDownloadRx =>
    cases rr <;> simp [dirMatch] at hd
  | DownloadSegmentRx c =>
    cases rr with
    | Res => simp [dirMatch] at hd
    | Req =>
      obtain ⟨t, dd, l⟩ := c
      simp only [SdoCmdWF, decide_eq_true_eq] at hw
      refine ⟨⟨CanId.std (n + 0x600),
        overwrite [(t.toNat <<< 4) ||| ((7 - dd.length) <<< 1) ||| l.toNat,
          0, 0, 0, 0, 0, 0, 0] 1 dd⟩, ?_, ?_⟩
      · unfold Sdo.encode SdoCmdDownloadSegmentRx.encode ReqRes.to_u16_sdo
        simp [hw]
      · rw [sdo_decode_req n hn]
        exact body_download_segment_rx n (CanId.std (n + 0x600)) t l dd hw
  | InitiateDownloadRx c =>
    cases rr with
    | Res => simp [dirMatch] at hd
    | Req =>
      obtain ⟨idx, sub, pay⟩ := c
      simp only [SdoCmdWF, Bool.and_eq_true, decide_eq_true_eq] at hw
      obtain ⟨hidx, hpay⟩ := hw
      have h16 : u16le (idx % 256) (idx / 256 % 256) = idx := by
        unfold u16le
        omega
      cases pay with
      | Expedited d =>
        simp only [payloadWF, Bool.and_eq_true, decide_eq_true_eq] at hpay
        obtain ⟨hp1, hp2⟩ := hpay
        rcases d with _ | ⟨a, _ | ⟨b, _ | ⟨c1, _ | ⟨e, _ | ⟨f, tl⟩⟩⟩⟩⟩
        · simp at hp1
        · refine ⟨⟨CanId.std (n + 0x600), [47, idx % 256, idx / 256 % 256, sub, a, 0, 0, 0]⟩, ?_, ?_⟩
          · unfold Sdo.encode SdoCmdInitiateDownloadRx.encode SdoCmdInitiatePayload.encode ReqRes.to_u16_sdo
            simp [overwrite]
          · rw [sdo_decode_req n hn, body_idr_exp1, h16]
        · refine ⟨⟨CanId.std (n + 0x600), [43, idx % 256, idx / 256 % 256, sub, a, b, 0, 0]⟩, ?_, ?_⟩
          · unfold Sdo.encode SdoCmdInitiateDownloadRx.encode SdoCmdInitiatePayload.encode ReqRes.to_u16_sdo
            simp [overwrite]
          · rw [sdo_decode_req n hn, body_idr_exp2, h16]
        · refine ⟨⟨CanId.std (n + 0x600), [39, idx % 256, idx / 256 % 256, sub, a, b, c1, 0]⟩, ?_, ?_⟩
          · unfold Sdo.encode SdoCmdInitiateDownloadRx.encode SdoCmdInitiatePayload.encode ReqRes.to_u16_sdo
            simp [overwrite]
          · rw [sdo_decode_req n hn, body_idr_exp3, h16]
        · refine ⟨⟨CanId.std (n + 0x600), [35, idx % 256, idx / 256 % 256, sub, a, b, c1, e]⟩, ?_, ?_⟩
          · unfold Sdo.encode SdoCmdInitiateDownloadRx.encode SdoCmdInitiatePayload.encode ReqRes.to_u16_sdo
            simp [overwrite]
          · rw [sdo_decode_req n hn, body_idr_exp4, h16]
        · simp only [List.length_cons] at hp2
          omega
      | Segmented o =>
        cases o with
        | none =>
          refine ⟨⟨CanId.std (n + 0x600), [32, idx % 256, idx / 256 % 256, sub, 0, 0, 0, 0]⟩, ?_, ?_⟩
          · unfold Sdo.encode SdoCmdInitiateDownloadRx.encode SdoCmdInitiatePayload.encode ReqRes.to_u16_sdo
            simp [overwrite]
          · rw [sdo_decode_req n hn, body_idr_segnone, h16]
        | some size =>
          simp only [payloadWF, decide_eq_true_eq] at hpay
          have h32 : u32le (size % 256) (size / 256 % 256) (size / 65536 % 256)
              (size / 16777216 % 256) = size := by
            unfold u32le
            omega
          refine ⟨⟨CanId.std (n + 0x600), [33, idx % 256, idx / 256 % 256, sub, size % 256,
            size / 256 % 256, size / 65536 % 256, size / 16777216 % 256]⟩, ?_, ?_⟩
          · unfold Sdo.encode SdoCmdInitiateDownloadRx.encode SdoCmdInitiatePayload.encode ReqRes.to_u16_sdo
            simp [overwrite, u32ToLe]
          · rw [sdo_decode_req n hn, body_idr_segsome, h16, h32]
  | InitiateUploadRx c =>
    cases rr with
    | Res => simp [dirMatch] at hd
    | Req =>
      obtain ⟨idx, sub⟩ := c
      simp only [SdoCmdWF, decide_eq_true_eq] at hw
      have h16 : u16le (idx % 256) (idx / 256 % 256) = idx := by
        unfold u16le
        omega
      refine ⟨⟨CanId.std (n + 0x600), [0x40, idx % 256, idx / 256 % 256, sub, 0, 0, 0, 0]⟩, ?_, ?_⟩
      · unfold Sdo.encode SdoCmdInitiateUploadRx.encode ReqRes.to_u16_sdo
        simp
      · rw [sdo_decode_req n hn, body_initiate_upload_rx, h16]
  | UploadSegmentRx c =>
    cases rr with
    | Res => simp [dirMatch] at hd
    | Req =>
      obtain ⟨t⟩ := c
      refine ⟨⟨CanId.std (n + 0x600),
        [(0b011 <<< 5) ||| (t.toNat <<< 4), 0, 0, 0, 0, 0, 0, 0]⟩, ?_, ?_⟩
      · unfold Sdo.encode SdoCmdUploadSegmentRx.encode ReqRes.to_u16_sdo
        simp
      · rw [sdo_decode_req n hn]
        exact body_upload_segment_rx n (CanId.std (n + 0x600)) t
  | AbortTransfer c =>
    obtain ⟨idx, sub, code⟩ := c
    simp only [SdoCmdWF, decide_eq_true_eq] at hw
    have h16 : u16le (idx % 256) (idx / 256 % 256) = idx := by
      unfold u16le
      omega
    cases rr with
    | Req =>
      refine ⟨⟨CanId.std (n + 0x600),
        [0x80, idx % 256, idx / 256 % 256, sub] ++ u32ToLe (AbortCode.encode code)⟩, ?_, ?_⟩
      · unfold Sdo.encode SdoCmdAbortTransfer.encode ReqRes.to_u16_sdo
        simp
      · rw [sdo_decode_req n hn, body_abort, h16]
    | Res =>
      refine ⟨⟨CanId.std (n + 0x580),
        [0x80, idx % 256, idx / 256 % 256, sub] ++ u32ToLe (AbortCode.encode code)⟩, ?_, ?_⟩
      · unfold Sdo.encode SdoCmdAbortTransfer.encode ReqRes.to_u16_sdo
        simp
      · rw [sdo_decode_res n hn, body_abort, h16]

/-- C1 witness: the round-trip theorem applied at a concrete expedited
4-byte InitiateDownload request to node 10. -/
theorem sdo_codec_roundtrip_witness :
    ∃ frame, Sdo.encode
        { node_id := 10,
          command := SdoCmd.InitiateDownloadRx
            { index := 1, sub_index := 2,
              payload := SdoCmdInitiatePayload.Expedited [3, 4, 0, 7] },
          reqres := ReqRes.Req } = some frame ∧
      Sdo.decode frame = DOut.ok
        { node_id := 10,
          command := SdoCmd.InitiateDownloadRx
            { index := 1, sub_index := 2,
              payload := SdoCmdInitiatePayload.Expedited [3, 4, 0, 7] },
          reqres := ReqRes.Req } :=
  sdo_codec_roundtrip _ (by decide) (by decide) (by decide)

end Canopeners
